import Mathlib

/-!
# uwrap: a shallow embedding of `uwrap.c` / `uwrap.h` (POSIX build)

The wrapper functions of `uwrap.c` are translated one by one.  Every native
call (`getaddrinfo`, `socket`, `setsockopt`, `bind`, `connect`, `fcntl`,
`close`, `freeaddrinfo`, `send`, `sendto`, `recv`, `recvfrom`, `select`) is an
arbitrary function supplied from outside, so that a statement quantified over
these functions holds for every outcome of the native calls.

C `int` / `ssize_t` values are `Int`; the conversions the code performs
implicitly (`int` to `size_t`, `ssize_t` to `int`) are explicit.  A finite
`double` is the rational it stands for, and arithmetic on `double` rounds to
IEEE 754 binary64.
-/

namespace Uwrap

/-! ## Constants of `uwrap.h` -/

def UWRAP_NOBLOCK : Int := 0
def UWRAP_BLOCK : Int := 1
def UWRAP_BIND : Int := 0
def UWRAP_CONNECT : Int := 1

/-- Bytes of a caller buffer, starting at the pointer handed to the wrapper. -/
abbrev Bytes := List UInt8

/-- The `struct uwrap_addr` of `uwrap.h`: `char data[128]`. -/
structure uwrap_addr where
  data : Bytes
deriving DecidableEq

/-- Value of `sizeof(struct uwrap_addr)`. -/
def sizeof_uwrap_addr : Nat := 128

/-! ## Implicit integer conversions of C (LP64) -/

/-- Conversion of an `int` argument to the `size_t` parameter of the native
transfer calls: reduction modulo `2^64`. -/
def toSizeT (n : Int) : Nat := (n % 2 ^ 64).toNat

/-- Conversion of an `ssize_t` result to the `int` return type of the
wrappers: reduction into `[-2^31, 2^31)`. -/
def toCInt (z : Int) : Int := (z + 2 ^ 31) % 2 ^ 32 - 2 ^ 31

/-- Reading of a native transfer result under the POSIX contract: a
non-negative result is the number of bytes transferred, a negative one (the
call returns `-1`) is a failure that transferred nothing. -/
def transmitted (ret : Int) : Option Nat :=
  if 0 ≤ ret then some ret.toNat else none

/-! ## Data path: the four transfer wrappers

The native calls are functions of their arguments and of an external state
`σ` (the network); they return the raw `ssize_t` result. -/

/-- Type of native `send(sock, buf, len, flags)`. -/
abbrev NativeSend (σ : Type) := Int → Bytes → Nat → Int → σ → Int × σ

/-- Type of native `sendto(sock, buf, len, flags, addr, addrlen)`. -/
abbrev NativeSendTo (σ : Type) :=
  Int → Bytes → Nat → Int → uwrap_addr → Nat → σ → Int × σ

/-- Type of native `recv(sock, buf, len, flags)`: result, buffer afterwards,
state afterwards. -/
abbrev NativeRecv (σ : Type) := Int → Bytes → Nat → Int → σ → Int × Bytes × σ

/-- Type of native `recvfrom(sock, buf, len, flags, addr, &addrlen)`: result,
buffer afterwards, address afterwards, state afterwards. -/
abbrev NativeRecvFrom (σ : Type) :=
  Int → Bytes → Nat → Int → uwrap_addr → Nat → σ → Int × Bytes × uwrap_addr × σ

/-- Function `uwrapSendTo`:
`return (sendto(sock, data, data_size, 0, addr, sizeof(struct uwrap_addr)) != data_size);`
The comparison is made in `ssize_t`, so no truncation takes place. -/
def uwrapSendTo {σ : Type} (sendto : NativeSendTo σ) (sock : Int) (addr : uwrap_addr)
    (data : Bytes) (data_size : Int) (s : σ) : Int × σ :=
  let r := sendto sock data (toSizeT data_size) 0 addr sizeof_uwrap_addr s
  (if r.1 ≠ data_size then 1 else 0, r.2)

/-- Function `uwrapReceiveFrom`:
`return recvfrom(sock, data, data_size, 0, addr, &addr_size);` with
`addr_size = sizeof(struct uwrap_addr)`. -/
def uwrapReceiveFrom {σ : Type} (recvfrom : NativeRecvFrom σ) (sock : Int) (addr : uwrap_addr)
    (data : Bytes) (data_size : Int) (s : σ) : Int × Bytes × uwrap_addr × σ :=
  let addr_size := sizeof_uwrap_addr
  let r := recvfrom sock data (toSizeT data_size) 0 addr addr_size s
  (toCInt r.1, r.2)

/-- Function `uwrapSend`: `return (send(sock, data, data_size, 0) != data_size);` -/
def uwrapSend {σ : Type} (send : NativeSend σ) (sock : Int)
    (data : Bytes) (data_size : Int) (s : σ) : Int × σ :=
  let r := send sock data (toSizeT data_size) 0 s
  (if r.1 ≠ data_size then 1 else 0, r.2)

/-- Function `uwrapReceive`: `return recv(sock, data, data_size, 0);` -/
def uwrapReceive {σ : Type} (recv : NativeRecv σ) (sock : Int)
    (data : Bytes) (data_size : Int) (s : σ) : Int × Bytes × σ :=
  let r := recv sock data (toSizeT data_size) 0 s
  (toCInt r.1, r.2)

/-! ## Socket construction: data model

`uwrapSocket` talks to the resolver and to the socket layer.  The values of
the system header constants it names are platform data and are taken as a
parameter. -/

/-- System header constants named by `uwrap.c`. -/
structure SysConsts where
  AI_PASSIVE : Int
  AF_UNSPEC : Int
  AF_INET6 : Int
  SOCK_DGRAM : Int
  IPPROTO_IPV6 : Int
  IPV6_V6ONLY : Int
  F_SETFL : Int
  O_NONBLOCK : Int
  sizeof_int : Nat
deriving DecidableEq

/-- One `struct addrinfo`, fields in declaration order; the `ai_next` link is
carried by `AddrList`. -/
structure AddrInfo where
  ai_flags : Int
  ai_family : Int
  ai_socktype : Int
  ai_protocol : Int
  ai_addrlen : Nat
  ai_addr : Option Bytes
  ai_canonname : Option String
deriving DecidableEq

/-- The linked list `getaddrinfo` stores through its last argument: the first
candidate and the candidates reached through `ai_next`. -/
structure AddrList where
  first : AddrInfo
  next : List AddrInfo
deriving DecidableEq

/-- A native call made by `uwrapSocket`, with its arguments. -/
inductive Call where
  | getaddrinfo (host serv : Option String) (hint : AddrInfo)
  | socket (family type protocol : Int)
  | setsockopt (sock level optname optval : Int) (optlen : Nat)
  | bind (sock : Int) (addr : Option Bytes) (addrlen : Nat)
  | connect (sock : Int) (addr : Option Bytes) (addrlen : Nat)
  | freeaddrinfo (res : AddrList)
  | fcntl (sock cmd arg extra : Int)
  | close (sock : Int)
deriving DecidableEq

/-- Outcomes of the native calls: each is an arbitrary function of the
arguments of the call.  `getaddrinfo` gives its result code and the list it
stores (meaningful when the code is `0`). -/
structure Native where
  getaddrinfo : Option String → Option String → AddrInfo → Int × AddrList
  socket : Int → Int → Int → Int
  setsockopt : Int → Int → Int → Int → Nat → Int
  bind : Int → Option Bytes → Nat → Int
  connect : Int → Option Bytes → Nat → Int
  fcntl : Int → Int → Int → Int → Int

/-- State of the operating system as far as `uwrapSocket` can change it: the
set of open socket handles, the file status flags of each handle, the
resolver results handed out and not yet released, and the native calls made
so far, oldest first. -/
structure World where
  openSocks : Finset Int
  statusFlags : Int → Int
  resolverLive : List AddrList
  trace : List Call

/-- Native calls made between two states of the world. -/
def callsSince (w0 w1 : World) : List Call := w1.trace.drop w0.trace.length

/-! ## Socket construction: effect of each native call on the world -/

/-- Call of `getaddrinfo`: on result code `0` the stored list is owned by the
resolver until released. -/
def sys_getaddrinfo (N : Native) (host serv : Option String) (hint : AddrInfo) (w : World) :
    Int × AddrList × World :=
  let r := N.getaddrinfo host serv hint
  (r.1, r.2,
    { w with
      trace := w.trace ++ [Call.getaddrinfo host serv hint]
      resolverLive := if r.1 = 0 then r.2 :: w.resolverLive else w.resolverLive })

/-- Call of `socket`: a result other than `-1` is a newly open handle, in the
default (blocking) mode. -/
def sys_socket (N : Native) (family type protocol : Int) (w : World) : Int × World :=
  let r := N.socket family type protocol
  (r,
    { w with
      trace := w.trace ++ [Call.socket family type protocol]
      openSocks := if r = -1 then w.openSocks else insert r w.openSocks
      statusFlags := if r = -1 then w.statusFlags else Function.update w.statusFlags r 0 })

/-- Call of `setsockopt`. -/
def sys_setsockopt (N : Native) (sock level optname optval : Int) (optlen : Nat) (w : World) :
    Int × World :=
  (N.setsockopt sock level optname optval optlen,
    { w with trace := w.trace ++ [Call.setsockopt sock level optname optval optlen] })

/-- Call of `bind`. -/
def sys_bind (N : Native) (sock : Int) (addr : Option Bytes) (addrlen : Nat) (w : World) :
    Int × World :=
  (N.bind sock addr addrlen, { w with trace := w.trace ++ [Call.bind sock addr addrlen] })

/-- Call of `connect`. -/
def sys_connect (N : Native) (sock : Int) (addr : Option Bytes) (addrlen : Nat) (w : World) :
    Int × World :=
  (N.connect sock addr addrlen, { w with trace := w.trace ++ [Call.connect sock addr addrlen] })

/-- Call of `freeaddrinfo`: the list is no longer owned by the resolver. -/
def sys_freeaddrinfo (res : AddrList) (w : World) : World :=
  { w with
    trace := w.trace ++ [Call.freeaddrinfo res]
    resolverLive := w.resolverLive.erase res }

/-- Call of `fcntl`: a successful `F_SETFL` replaces the file status flags of
the handle by the argument. -/
def sys_fcntl (K : SysConsts) (N : Native) (sock cmd arg extra : Int) (w : World) : Int × World :=
  let r := N.fcntl sock cmd arg extra
  (r,
    { w with
      trace := w.trace ++ [Call.fcntl sock cmd arg extra]
      statusFlags :=
        if cmd = K.F_SETFL ∧ r ≠ -1 then Function.update w.statusFlags sock arg
        else w.statusFlags })

/-- Call of `close`: the handle is no longer open. -/
def sys_close (sock : Int) (w : World) : World :=
  { w with
    trace := w.trace ++ [Call.close sock]
    openSocks := w.openSocks.erase sock }

/-! ## Socket construction and teardown -/

/-- Function `uwrapClose` (POSIX branch): `close(sock);` -/
def uwrapClose (sock : Int) (w : World) : World :=
  sys_close sock w

/-- Function `uwrapSocket` (POSIX branch), statement by statement. -/
def uwrapSocket (K : SysConsts) (N : Native) (block mode : Int) (host serv : Option String)
    (w0 : World) : Int × World :=
  let flags := if mode = UWRAP_BIND then K.AI_PASSIVE else 0
  let hint : AddrInfo := ⟨flags, K.AF_UNSPEC, K.SOCK_DGRAM, 0, 0, none, none⟩
  -- get address info
  let g := sys_getaddrinfo N host serv hint w0
  let result := g.2.1
  if g.1 ≠ 0 then (-1, g.2.2) else
  -- create socket
  let c := sys_socket N result.first.ai_family result.first.ai_socktype
    result.first.ai_protocol g.2.2
  let sock := c.1
  if sock = -1 then (-1, c.2) else
  -- make sure IPV6_ONLY is disabled
  let w3 :=
    if result.first.ai_family = K.AF_INET6 then
      (sys_setsockopt N sock K.IPPROTO_IPV6 K.IPV6_V6ONLY 0 K.sizeof_int c.2).2
    else c.2
  -- bind or connect
  let b :=
    if mode = UWRAP_BIND then sys_bind N sock result.first.ai_addr result.first.ai_addrlen w3
    else sys_connect N sock result.first.ai_addr result.first.ai_addrlen w3
  if b.1 ≠ 0 then (-1, uwrapClose sock b.2) else
  -- free address info
  let w5 := sys_freeaddrinfo result b.2
  -- set non-blocking if needed
  if block = UWRAP_NOBLOCK then
    let f := sys_fcntl K N sock K.F_SETFL K.O_NONBLOCK 1 w5
    if f.1 = -1 then (-1, uwrapClose sock f.2) else (sock, f.2)
  else (sock, w5)

/-! ## Readiness wait -/

/-- The `struct timeval` handed to `select`. -/
structure timeval where
  tv_sec : Int
  tv_usec : Int
deriving DecidableEq

/-- An `fd_set`, as the set of descriptors whose bit is set. -/
abbrev fd_set := Finset Int

/-- Macro `FD_ZERO`: the empty set. -/
def FD_ZERO : fd_set := ∅

/-- Macro `FD_SET`: the descriptor joins the set.  The macro is defined for
`0 ≤ fd < FD_SETSIZE` only; outside that range its behaviour is undefined
(`none`).  `FD_SETSIZE` is a system header constant and is a parameter. -/
def FD_SET (FD_SETSIZE : Int) (fd : Int) (s : fd_set) : Option fd_set :=
  if 0 ≤ fd ∧ fd < FD_SETSIZE then some (insert fd s) else none

/-- Addition of two `int` values: a sum outside the range of `int` is
undefined (`none`). -/
def intAdd (a b : Int) : Option Int :=
  if -(2 ^ 31) ≤ a + b ∧ a + b < 2 ^ 31 then some (a + b) else none

/-- Type of native `select(nfds, readfds, writefds, exceptfds, timeout)`; a
null set pointer is `none`. -/
abbrev NativeSelect := Int → Option fd_set → Option fd_set → Option fd_set → timeval → Int

/-! ### Arithmetic of `double`

A finite `double` is the rational it stands for.  Every operation gives the
exact result rounded once to IEEE 754 binary64, to nearest, ties to even
(evaluation in the precision of the type, `FLT_EVAL_METHOD` 0). -/

/-- Binary exponent of a non-zero rational: `floor (log2 |x|)`. -/
def binExp (x : ℚ) : Int := Int.log 2 |x|

/-- Unit in the last place of binary64 at `x`: 52 fraction bits below the
binary exponent, the exponent not falling below `-1022` (subnormals). -/
def ulp (x : ℚ) : ℚ := (2 : ℚ) ^ (max (binExp x) (-1022) - 52)

/-- Rounding of a rational to the nearest integer, a tie going to the even
neighbour. -/
def roundHalfEven (y : ℚ) : Int :=
  if y - (⌊y⌋ : ℚ) < 1 / 2 then ⌊y⌋
  else if 1 / 2 < y - (⌊y⌋ : ℚ) then ⌊y⌋ + 1
  else if ⌊y⌋ % 2 = 0 then ⌊y⌋ else ⌊y⌋ + 1

/-- Rounding of an exact result to binary64: the nearest multiple of the unit
in the last place, ties to even.  A result beyond the largest finite
`double` (an infinity in IEEE arithmetic) is left as a rational beyond the
range of `long`. -/
def roundDouble (x : ℚ) : ℚ := (roundHalfEven (x / ulp x) : ℚ) * ulp x

/-- A rational that binary64 represents exactly. -/
def isDouble (x : ℚ) : Prop := roundDouble x = x

/-- Conversion of an integer (`long`, `int`) to `double`. -/
def doubleOfInt (z : Int) : ℚ := roundDouble (z : ℚ)

/-- Subtraction of two `double` values. -/
def doubleSub (a b : ℚ) : ℚ := roundDouble (a - b)

/-- Multiplication of two `double` values. -/
def doubleMul (a b : ℚ) : ℚ := roundDouble (a * b)

/-- Truncation toward zero, the rounding of a C conversion from `double` to
an integer type. -/
def truncToInt (q : ℚ) : Int := if 0 ≤ q then ⌊q⌋ else ⌈q⌉

/-- Conversion of a `double` to a 64-bit `long` (`time_t`, `suseconds_t`).
Outside the range of `long` C leaves the conversion undefined; `ovf` is what
the platform yields there. -/
def toLong (ovf : ℚ → Int) (q : ℚ) : Int :=
  if -(2 ^ 63) ≤ truncToInt q ∧ truncToInt q < 2 ^ 63 then truncToInt q else ovf q

/-- The two assignments of `uwrapSelect` that fill the wait structure:
`time.tv_sec = timeout; time.tv_usec = (timeout - time.tv_sec)*1000000;`
The operand `time.tv_sec` and the constant `1000000` are converted to
`double`, the subtraction and the multiplication are made in `double`, and
each assignment converts the `double` to `long`. -/
def uwrapSelect_time (ovf : ℚ → Int) (timeout : ℚ) : timeval :=
  let tv_sec := toLong ovf timeout
  let tv_usec :=
    toLong ovf (doubleMul (doubleSub timeout (doubleOfInt tv_sec)) (doubleOfInt 1000000))
  ⟨tv_sec, tv_usec⟩

/-- Function `uwrapSelect`: `FD_ZERO(&set); FD_SET(sock, &set);`, the wait
structure, then `return select(sock+1, &set, NULL, NULL, &time);`.  The
result is `none` where the C program has no defined behaviour. -/
def uwrapSelect (FD_SETSIZE : Int) (select : NativeSelect) (ovf : ℚ → Int) (sock : Int)
    (timeout : ℚ) : Option Int :=
  match FD_SET FD_SETSIZE sock FD_ZERO with
  | none => none
  | some set =>
    let time := uwrapSelect_time ovf timeout
    match intAdd sock 1 with
    | none => none
    | some nfds => some (select nfds (some set) none none time)

/-- Network state: the largest datagram carried, the socket each connected
socket sends to, and the datagrams pending at each socket, oldest first. -/
structure Net where
  maxDatagram : Nat
  peer : Int → Option Int
  pending : Int → List Bytes

/-- A datagram joins the end of the queue of socket `p`. -/
def Net.enqueue (net : Net) (p : Int) (d : Bytes) : Net :=
  { net with pending := Function.update net.pending p (net.pending p ++ [d]) }

/-- The queue of socket `s` is replaced by `rest`. -/
def Net.setQueue (net : Net) (s : Int) (rest : List Bytes) : Net :=
  { net with pending := Function.update net.pending s rest }

/-- Idealised native `send`: the first `len` bytes of the buffer become one
datagram at the end of the peer's queue, and `len` is returned; without a
peer, for an oversized datagram, or with any flag set (the idealised network
offers plain transfers only), the call fails with `-1`. -/
def Net.send : NativeSend Net := fun sock buf len flags net =>
  match net.peer sock with
  | none => (-1, net)
  | some p =>
    if flags = 0 ∧ len ≤ net.maxDatagram then (len, net.enqueue p (buf.take len))
    else (-1, net)

/-- Idealised native `recv`: the oldest pending datagram is removed and
copied to the start of the buffer, cut to `len` bytes, and the number of
bytes copied is returned; with nothing pending, or with any flag set, the
call fails with `-1`. -/
def Net.recv : NativeRecv Net := fun sock buf len flags net =>
  match net.pending sock with
  | [] => (-1, buf, net)
  | d :: rest =>
    if flags = 0 then
      (min d.length len, d.take (min d.length len) ++ buf.drop (min d.length len),
        net.setQueue sock rest)
    else (-1, buf, net)

/-! ## Outcomes of the native calls as `uwrapSocket` observes them -/

/-- The hints `uwrapSocket` hands to the resolver for a given mode. -/
def hintOf (K : SysConsts) (mode : Int) : AddrInfo :=
  ⟨if mode = UWRAP_BIND then K.AI_PASSIVE else 0, K.AF_UNSPEC, K.SOCK_DGRAM, 0, 0, none, none⟩

/-- Result code of the resolver call. -/
def gaiOf (K : SysConsts) (N : Native) (mode : Int) (host serv : Option String) : Int :=
  (N.getaddrinfo host serv (hintOf K mode)).1

/-- List stored by the resolver call. -/
def resultOf (K : SysConsts) (N : Native) (mode : Int) (host serv : Option String) : AddrList :=
  (N.getaddrinfo host serv (hintOf K mode)).2

/-- Handle produced by `socket()` for the first resolved candidate. -/
def sockOf (K : SysConsts) (N : Native) (mode : Int) (host serv : Option String) : Int :=
  N.socket (resultOf K N mode host serv).first.ai_family
    (resultOf K N mode host serv).first.ai_socktype
    (resultOf K N mode host serv).first.ai_protocol

/-- Result of the bind (mode `UWRAP_BIND`) or connect (any other mode) call. -/
def bindConnectOf (K : SysConsts) (N : Native) (mode : Int) (host serv : Option String) : Int :=
  if mode = UWRAP_BIND then
    N.bind (sockOf K N mode host serv) (resultOf K N mode host serv).first.ai_addr
      (resultOf K N mode host serv).first.ai_addrlen
  else
    N.connect (sockOf K N mode host serv) (resultOf K N mode host serv).first.ai_addr
      (resultOf K N mode host serv).first.ai_addrlen

/-- Result of the non-blocking switch `fcntl(sock, F_SETFL, O_NONBLOCK, 1)`. -/
def fcntlOf (K : SysConsts) (N : Native) (mode : Int) (host serv : Option String) : Int :=
  N.fcntl (sockOf K N mode host serv) K.F_SETFL K.O_NONBLOCK 1

/-! ## Concrete data used to evaluate the code -/

/-- Header constants of Linux. -/
def linuxConsts : SysConsts :=
  { AI_PASSIVE := 1, AF_UNSPEC := 0, AF_INET6 := 10, SOCK_DGRAM := 2, IPPROTO_IPV6 := 41,
    IPV6_V6ONLY := 26, F_SETFL := 4, O_NONBLOCK := 2048, sizeof_int := 4 }

/-- An IPv4 UDP candidate for port 1728 on the wildcard address. -/
def sampleCandidate : AddrInfo :=
  ⟨1, 2, 2, 17, 16, some [2, 0, 6, 192, 0, 0, 0, 0, 0, 0, 0, 0, 0, 0, 0, 0], none⟩

/-- A resolver result holding the single sample candidate. -/
def sampleResult : AddrList := ⟨sampleCandidate, []⟩

/-- Native calls that all succeed; `socket()` hands out descriptor 3. -/
def nativeOk : Native :=
  { getaddrinfo := fun _ _ _ => (0, sampleResult)
    socket := fun _ _ _ => 3
    setsockopt := fun _ _ _ _ _ => 0
    bind := fun _ _ _ => 0
    connect := fun _ _ _ => 0
    fcntl := fun _ _ _ _ => 0 }

/-- Native calls where resolution succeeds and `socket()` fails. -/
def nativeSocketFails : Native := { nativeOk with socket := fun _ _ _ => -1 }

/-- Native calls where resolution and `socket()` succeed and `bind` and
`connect` fail (for instance because the port is in use). -/
def nativeBindFails : Native :=
  { nativeOk with bind := fun _ _ _ => -1, connect := fun _ _ _ => -1 }

/-- A process with the three standard descriptors open and no call made. -/
def world0 : World :=
  { openSocks := {0, 1, 2}, statusFlags := fun _ => 0, resolverLive := [], trace := [] }

/-- A native `send` that fails outright. -/
def sendFails : NativeSend Unit := fun _ _ _ _ s => (-1, s)

/-- A native `sendto` that fails outright. -/
def sendtoFails : NativeSendTo Unit := fun _ _ _ _ _ _ s => (-1, s)

/-! ## Worlds reached along a run of `uwrapSocket` -/

/-- World after the resolver call. -/
def worldResolved (K : SysConsts) (N : Native) (mode : Int) (host serv : Option String)
    (w0 : World) : World :=
  (sys_getaddrinfo N host serv (hintOf K mode) w0).2.2

/-- World after the `socket()` call. -/
def worldCreated (K : SysConsts) (N : Native) (mode : Int) (host serv : Option String)
    (w0 : World) : World :=
  (sys_socket N (resultOf K N mode host serv).first.ai_family
    (resultOf K N mode host serv).first.ai_socktype
    (resultOf K N mode host serv).first.ai_protocol (worldResolved K N mode host serv w0)).2

/-- World after the `IPV6_V6ONLY` step. -/
def worldOptioned (K : SysConsts) (N : Native) (mode : Int) (host serv : Option String)
    (w0 : World) : World :=
  if (resultOf K N mode host serv).first.ai_family = K.AF_INET6 then
    (sys_setsockopt N (sockOf K N mode host serv) K.IPPROTO_IPV6 K.IPV6_V6ONLY 0 K.sizeof_int
      (worldCreated K N mode host serv w0)).2
  else worldCreated K N mode host serv w0

/-- World after the bind or connect call. -/
def worldAttached (K : SysConsts) (N : Native) (mode : Int) (host serv : Option String)
    (w0 : World) : World :=
  if mode = UWRAP_BIND then
    (sys_bind N (sockOf K N mode host serv) (resultOf K N mode host serv).first.ai_addr
      (resultOf K N mode host serv).first.ai_addrlen (worldOptioned K N mode host serv w0)).2
  else
    (sys_connect N (sockOf K N mode host serv) (resultOf K N mode host serv).first.ai_addr
      (resultOf K N mode host serv).first.ai_addrlen (worldOptioned K N mode host serv w0)).2

/-- World after `freeaddrinfo`. -/
def worldFreed (K : SysConsts) (N : Native) (mode : Int) (host serv : Option String)
    (w0 : World) : World :=
  sys_freeaddrinfo (resultOf K N mode host serv) (worldAttached K N mode host serv w0)

/-- World after the non-blocking switch. -/
def worldSwitched (K : SysConsts) (N : Native) (mode : Int) (host serv : Option String)
    (w0 : World) : World :=
  (sys_fcntl K N (sockOf K N mode host serv) K.F_SETFL K.O_NONBLOCK 1
    (worldFreed K N mode host serv w0)).2

/-- A platform on which an out-of-range conversion yields the smallest
`long`. -/
def ovfMin : ℚ → Int := fun _ => -(2 ^ 63)

/-- A network with two sockets: socket 4 is connected to socket 3, and
nothing is pending. -/
def loopbackNet : Net :=
  { maxDatagram := 65507
    peer := fun s => if s = 4 then some 3 else none
    pending := fun _ => [] }

/-- A network in which socket 4 is connected to socket 3 and one earlier
datagram, the single byte 9, is still pending at socket 3. -/
def busyNet : Net :=
  { maxDatagram := 65507
    peer := fun s => if s = 4 then some 3 else none
    pending := fun s => if s = 3 then [[9]] else [] }

/-- The `double` nearest to 0.7, bit pattern `0x3FE6666666666666`. -/
def doubleSevenTenths : ℚ := 3152519739159347 / 4503599627370496


/-! ## Calls made along a run of `uwrapSocket` -/

/-- Which native function a call is to. -/
inductive CallKind where
  | getaddrinfo | socket | setsockopt | bind | connect | freeaddrinfo | fcntl | close
deriving DecidableEq

/-- The native function a call is to. -/
def Call.kind : Call → CallKind
  | .getaddrinfo _ _ _ => .getaddrinfo
  | .socket _ _ _ => .socket
  | .setsockopt _ _ _ _ _ => .setsockopt
  | .bind _ _ _ => .bind
  | .connect _ _ _ => .connect
  | .freeaddrinfo _ => .freeaddrinfo
  | .fcntl _ _ _ _ => .fcntl
  | .close _ => .close

/-- The calls to one native function among a list of calls, in order. -/
def callsTo (k : CallKind) (cs : List Call) : List Call :=
  cs.filter (fun c => c.kind = k)

/-- The resolver call. -/
def gaiCall (K : SysConsts) (mode : Int) (host serv : Option String) : Call :=
  Call.getaddrinfo host serv (hintOf K mode)

/-- The `socket()` call. -/
def socketCall (K : SysConsts) (N : Native) (mode : Int) (host serv : Option String) : Call :=
  Call.socket (resultOf K N mode host serv).first.ai_family
    (resultOf K N mode host serv).first.ai_socktype
    (resultOf K N mode host serv).first.ai_protocol

/-- The `setsockopt` call, made for an IPv6 candidate only. -/
def optCalls (K : SysConsts) (N : Native) (mode : Int) (host serv : Option String) : List Call :=
  if (resultOf K N mode host serv).first.ai_family = K.AF_INET6 then
    [Call.setsockopt (sockOf K N mode host serv) K.IPPROTO_IPV6 K.IPV6_V6ONLY 0 K.sizeof_int]
  else []

/-- The bind or connect call. -/
def attachCall (K : SysConsts) (N : Native) (mode : Int) (host serv : Option String) : Call :=
  if mode = UWRAP_BIND then
    Call.bind (sockOf K N mode host serv) (resultOf K N mode host serv).first.ai_addr
      (resultOf K N mode host serv).first.ai_addrlen
  else
    Call.connect (sockOf K N mode host serv) (resultOf K N mode host serv).first.ai_addr
      (resultOf K N mode host serv).first.ai_addrlen

/-- The `freeaddrinfo` call. -/
def freeCall (K : SysConsts) (N : Native) (mode : Int) (host serv : Option String) : Call :=
  Call.freeaddrinfo (resultOf K N mode host serv)

/-- The non-blocking switch. -/
def switchCall (K : SysConsts) (N : Native) (mode : Int) (host serv : Option String) : Call :=
  Call.fcntl (sockOf K N mode host serv) K.F_SETFL K.O_NONBLOCK 1

/-- The `close` call. -/
def closeCall (K : SysConsts) (N : Native) (mode : Int) (host serv : Option String) : Call :=
  Call.close (sockOf K N mode host serv)

/-- The native calls of one run of `uwrapSocket`, in order, for each path
through the function. -/
def callsOfRun (K : SysConsts) (N : Native) (block mode : Int) (host serv : Option String) :
    List Call :=
  if gaiOf K N mode host serv ≠ 0 then [gaiCall K mode host serv]
  else if sockOf K N mode host serv = -1 then
    [gaiCall K mode host serv, socketCall K N mode host serv]
  else if bindConnectOf K N mode host serv ≠ 0 then
    [gaiCall K mode host serv, socketCall K N mode host serv] ++ optCalls K N mode host serv ++
      [attachCall K N mode host serv, closeCall K N mode host serv]
  else if block = UWRAP_NOBLOCK then
    if fcntlOf K N mode host serv = -1 then
      [gaiCall K mode host serv, socketCall K N mode host serv] ++ optCalls K N mode host serv ++
        [attachCall K N mode host serv, freeCall K N mode host serv,
          switchCall K N mode host serv, closeCall K N mode host serv]
    else
      [gaiCall K mode host serv, socketCall K N mode host serv] ++ optCalls K N mode host serv ++
        [attachCall K N mode host serv, freeCall K N mode host serv,
          switchCall K N mode host serv]
  else
    [gaiCall K mode host serv, socketCall K N mode host serv] ++ optCalls K N mode host serv ++
      [attachCall K N mode host serv, freeCall K N mode host serv]

/-! ## Transfer wrappers: results -/

/-- The result of `uwrapSendTo` is `0` when the native result equals
`data_size` and `1` otherwise. -/
theorem uwrapSendTo_result {σ : Type} (sendto : NativeSendTo σ) (sock : Int) (addr : uwrap_addr)
    (data : Bytes) (data_size : Int) (s : σ) :
    (uwrapSendTo sendto sock addr data data_size s).1 =
      if (sendto sock data (toSizeT data_size) 0 addr sizeof_uwrap_addr s).1 = data_size
      then 0 else 1 := by
  unfold uwrapSendTo
  by_cases h : (sendto sock data (toSizeT data_size) 0 addr sizeof_uwrap_addr s).1 = data_size
    <;> simp [h]

/-- The result of `uwrapSend` is `0` when the native result equals
`data_size` and `1` otherwise. -/
theorem uwrapSend_result {σ : Type} (send : NativeSend σ) (sock : Int)
    (data : Bytes) (data_size : Int) (s : σ) :
    (uwrapSend send sock data data_size s).1 =
      if (send sock data (toSizeT data_size) 0 s).1 = data_size then 0 else 1 := by
  unfold uwrapSend
  by_cases h : (send sock data (toSizeT data_size) 0 s).1 = data_size <;> simp [h]

/-- For a non-negative `data_size`, `uwrapSendTo` and `uwrapSend` return `0`
exactly when the native call reports `data_size` bytes transmitted, and `1`
otherwise. -/
theorem send_rule_of_nonneg {σ : Type} (sendto : NativeSendTo σ) (send : NativeSend σ)
    (sock : Int) (addr : uwrap_addr) (data : Bytes) (data_size : Int) (s : σ)
    (h : 0 ≤ data_size) :
    ((uwrapSendTo sendto sock addr data data_size s).1 = 0 ↔
      transmitted (sendto sock data (toSizeT data_size) 0 addr sizeof_uwrap_addr s).1
        = some data_size.toNat) ∧
    ((uwrapSendTo sendto sock addr data data_size s).1 = 0 ∨
      (uwrapSendTo sendto sock addr data data_size s).1 = 1) ∧
    ((uwrapSend send sock data data_size s).1 = 0 ↔
      transmitted (send sock data (toSizeT data_size) 0 s).1 = some data_size.toNat) ∧
    ((uwrapSend send sock data data_size s).1 = 0 ∨
      (uwrapSend send sock data data_size s).1 = 1) := by
  have key : ∀ r : Int, r = data_size ↔ transmitted r = some data_size.toNat := by
    intro r
    unfold transmitted
    constructor
    · intro e; subst e; simp [h]
    · intro e
      by_cases hr : 0 ≤ r
      · simp [hr] at e; omega
      · simp [hr] at e
  rw [uwrapSendTo_result, uwrapSend_result]
  refine ⟨?_, ?_, ?_, ?_⟩
  · rw [← key]; split_ifs with e <;> simp [e]
  · split_ifs <;> simp
  · rw [← key]; split_ifs with e <;> simp [e]
  · split_ifs <;> simp

/-- Witness of `send_rule_of_nonneg`: a three-byte send that fails. -/
theorem send_rule_of_nonneg_witness :
    (0 : Int) ≤ 3 ∧ (uwrapSend sendFails 5 [1, 2, 3] 3 ()).1 = 1 := by
  have h := send_rule_of_nonneg sendtoFails sendFails 5 ⟨[]⟩ [1, 2, 3] 3 () (by decide)
  refine ⟨by decide, ?_⟩
  rcases h.2.2.2 with h0 | h1
  · have := h.2.2.1.mp h0
    simp [sendFails, transmitted] at this
  · exact h1

/-- C1: with `data_size = -1` and a native call that fails outright (result
`-1`, no byte transmitted), `uwrapSendTo` and `uwrapSend` both return `0`,
although the native call does not report any transmitted byte count. -/
theorem C1_send_success_without_transmission :
    (uwrapSendTo sendtoFails 5 ⟨[]⟩ [] (-1) ()).1 = 0 ∧
    transmitted (sendtoFails 5 [] (toSizeT (-1)) 0 ⟨[]⟩ sizeof_uwrap_addr ()).1 = none ∧
    (uwrapSend sendFails 5 [] (-1) ()).1 = 0 ∧
    transmitted (sendFails 5 [] (toSizeT (-1)) 0 ()).1 = none := by
  refine ⟨?_, ?_, ?_, ?_⟩ <;> simp [uwrapSendTo, uwrapSend, sendtoFails, sendFails, transmitted]

/-- C2: a native `send` / `sendto` that returns `-1` for a request of
`data_size = -1` makes `uwrapSend` and `uwrapSendTo` return `0`, the value
that stands for success. -/
theorem C2_total_failure_returns_zero :
    (sendFails 5 [] (toSizeT (-1)) 0 ()).1 = -1 ∧
    (uwrapSend sendFails 5 [] (-1) ()).1 = 0 ∧
    (sendtoFails 5 [] (toSizeT (-1)) 0 ⟨[]⟩ sizeof_uwrap_addr ()).1 = -1 ∧
    (uwrapSendTo sendtoFails 5 ⟨[]⟩ [] (-1) ()).1 = 0 := by
  refine ⟨?_, ?_, ?_, ?_⟩ <;> simp [uwrapSendTo, uwrapSend, sendtoFails, sendFails]

/-- For every `data_size` other than `-1`, a native call that returns `-1`
makes `uwrapSend` and `uwrapSendTo` return `1`. -/
theorem send_failure_nonzero_of_ne {σ : Type} (sendto : NativeSendTo σ) (send : NativeSend σ)
    (sock : Int) (addr : uwrap_addr) (data : Bytes) (data_size : Int) (s : σ)
    (h : data_size ≠ -1) :
    ((send sock data (toSizeT data_size) 0 s).1 = -1 →
      (uwrapSend send sock data data_size s).1 = 1) ∧
    ((sendto sock data (toSizeT data_size) 0 addr sizeof_uwrap_addr s).1 = -1 →
      (uwrapSendTo sendto sock addr data data_size s).1 = 1) := by
  rw [uwrapSendTo_result, uwrapSend_result]
  constructor
  · intro e; rw [e]; simp [Ne.symm h]
  · intro e; rw [e]; simp [Ne.symm h]

/-- Witness of `send_failure_nonzero_of_ne`: a failing send of three bytes. -/
theorem send_failure_nonzero_of_ne_witness :
    (3 : Int) ≠ -1 ∧ (uwrapSend sendFails 5 [1, 2, 3] 3 ()).1 = 1 :=
  ⟨by decide,
   (send_failure_nonzero_of_ne sendtoFails sendFails 5 ⟨[]⟩ [1, 2, 3] 3 () (by decide)).1 rfl⟩

/-! ## Socket construction: the run, path by path -/

/-- The run of `uwrapSocket` written over the outcomes of the native calls and
the worlds reached along the way. -/
theorem uwrapSocket_eq (K : SysConsts) (N : Native) (block mode : Int)
    (host serv : Option String) (w0 : World) :
    uwrapSocket K N block mode host serv w0 =
      if gaiOf K N mode host serv ≠ 0 then (-1, worldResolved K N mode host serv w0)
      else if sockOf K N mode host serv = -1 then (-1, worldCreated K N mode host serv w0)
      else if bindConnectOf K N mode host serv ≠ 0 then
        (-1, uwrapClose (sockOf K N mode host serv) (worldAttached K N mode host serv w0))
      else if block = UWRAP_NOBLOCK then
        if fcntlOf K N mode host serv = -1 then
          (-1, uwrapClose (sockOf K N mode host serv) (worldSwitched K N mode host serv w0))
        else (sockOf K N mode host serv, worldSwitched K N mode host serv w0)
      else (sockOf K N mode host serv, worldFreed K N mode host serv w0) := by
  by_cases hm : mode = UWRAP_BIND
  · simp only [uwrapSocket, bindConnectOf, worldAttached, worldSwitched, worldFreed,
      worldOptioned, worldCreated, worldResolved, sockOf, resultOf, gaiOf, fcntlOf, hintOf,
      if_pos hm]
    rfl
  · simp only [uwrapSocket, bindConnectOf, worldAttached, worldSwitched, worldFreed,
      worldOptioned, worldCreated, worldResolved, sockOf, resultOf, gaiOf, fcntlOf, hintOf,
      if_neg hm]
    rfl

/-! ## Socket construction: the worlds, field by field -/

section Fields

variable (K : SysConsts) (N : Native) (mode : Int) (host serv : Option String) (w0 : World)

theorem callsSince_of_trace (w1 : World) (cs : List Call) (h : w1.trace = w0.trace ++ cs) :
    callsSince w0 w1 = cs := by
  unfold callsSince
  rw [h]
  exact List.drop_left _ _

theorem trace_worldResolved :
    (worldResolved K N mode host serv w0).trace = w0.trace ++ [gaiCall K mode host serv] := rfl

theorem trace_worldCreated :
    (worldCreated K N mode host serv w0).trace =
      w0.trace ++ [gaiCall K mode host serv, socketCall K N mode host serv] := by
  show (worldResolved K N mode host serv w0).trace ++ [socketCall K N mode host serv] = _
  rw [trace_worldResolved]; simp

theorem trace_worldOptioned :
    (worldOptioned K N mode host serv w0).trace =
      w0.trace ++ ([gaiCall K mode host serv, socketCall K N mode host serv] ++
        optCalls K N mode host serv) := by
  unfold worldOptioned optCalls
  split_ifs
  · show (worldCreated K N mode host serv w0).trace ++ _ = _
    rw [trace_worldCreated]; simp
  · rw [trace_worldCreated]; simp

theorem trace_worldAttached :
    (worldAttached K N mode host serv w0).trace =
      w0.trace ++ ([gaiCall K mode host serv, socketCall K N mode host serv] ++
        optCalls K N mode host serv ++ [attachCall K N mode host serv]) := by
  unfold worldAttached attachCall
  split_ifs
  · show (worldOptioned K N mode host serv w0).trace ++ _ = _
    rw [trace_worldOptioned]; simp
  · show (worldOptioned K N mode host serv w0).trace ++ _ = _
    rw [trace_worldOptioned]; simp

theorem trace_worldFreed :
    (worldFreed K N mode host serv w0).trace =
      w0.trace ++ ([gaiCall K mode host serv, socketCall K N mode host serv] ++
        optCalls K N mode host serv ++
        [attachCall K N mode host serv, freeCall K N mode host serv]) := by
  show (worldAttached K N mode host serv w0).trace ++ [freeCall K N mode host serv] = _
  rw [trace_worldAttached]; simp

theorem trace_worldSwitched :
    (worldSwitched K N mode host serv w0).trace =
      w0.trace ++ ([gaiCall K mode host serv, socketCall K N mode host serv] ++
        optCalls K N mode host serv ++
        [attachCall K N mode host serv, freeCall K N mode host serv,
          switchCall K N mode host serv]) := by
  show (worldFreed K N mode host serv w0).trace ++ [switchCall K N mode host serv] = _
  rw [trace_worldFreed]; simp

theorem trace_uwrapClose (s : Int) (w : World) :
    (uwrapClose s w).trace = w.trace ++ [Call.close s] := rfl

theorem openSocks_uwrapClose (s : Int) (w : World) :
    (uwrapClose s w).openSocks = w.openSocks.erase s := rfl

theorem resolverLive_uwrapClose (s : Int) (w : World) :
    (uwrapClose s w).resolverLive = w.resolverLive := rfl

theorem statusFlags_uwrapClose (s : Int) (w : World) :
    (uwrapClose s w).statusFlags = w.statusFlags := rfl

theorem openSocks_worldResolved :
    (worldResolved K N mode host serv w0).openSocks = w0.openSocks := rfl

theorem openSocks_worldCreated :
    (worldCreated K N mode host serv w0).openSocks =
      if sockOf K N mode host serv = -1 then w0.openSocks
      else insert (sockOf K N mode host serv) w0.openSocks := rfl

theorem openSocks_worldOptioned :
    (worldOptioned K N mode host serv w0).openSocks =
      (worldCreated K N mode host serv w0).openSocks := by
  unfold worldOptioned; split_ifs <;> rfl

theorem openSocks_worldAttached :
    (worldAttached K N mode host serv w0).openSocks =
      (worldCreated K N mode host serv w0).openSocks := by
  rw [← openSocks_worldOptioned]; unfold worldAttached; split_ifs <;> rfl

theorem openSocks_worldFreed :
    (worldFreed K N mode host serv w0).openSocks =
      (worldCreated K N mode host serv w0).openSocks := by
  rw [← openSocks_worldAttached]; rfl

theorem openSocks_worldSwitched :
    (worldSwitched K N mode host serv w0).openSocks =
      (worldCreated K N mode host serv w0).openSocks := by
  rw [← openSocks_worldFreed]; rfl

theorem resolverLive_worldResolved :
    (worldResolved K N mode host serv w0).resolverLive =
      if gaiOf K N mode host serv = 0 then resultOf K N mode host serv :: w0.resolverLive
      else w0.resolverLive := rfl

theorem resolverLive_worldCreated :
    (worldCreated K N mode host serv w0).resolverLive =
      (worldResolved K N mode host serv w0).resolverLive := rfl

theorem resolverLive_worldOptioned :
    (worldOptioned K N mode host serv w0).resolverLive =
      (worldResolved K N mode host serv w0).resolverLive := by
  unfold worldOptioned; split_ifs <;> rfl

theorem resolverLive_worldAttached :
    (worldAttached K N mode host serv w0).resolverLive =
      (worldResolved K N mode host serv w0).resolverLive := by
  rw [← resolverLive_worldOptioned]; unfold worldAttached; split_ifs <;> rfl

theorem resolverLive_worldFreed :
    (worldFreed K N mode host serv w0).resolverLive =
      ((worldResolved K N mode host serv w0).resolverLive).erase (resultOf K N mode host serv) := by
  rw [← resolverLive_worldAttached]; rfl

theorem resolverLive_worldSwitched :
    (worldSwitched K N mode host serv w0).resolverLive =
      ((worldResolved K N mode host serv w0).resolverLive).erase (resultOf K N mode host serv) := by
  rw [← resolverLive_worldFreed]; rfl

theorem statusFlags_worldCreated :
    (worldCreated K N mode host serv w0).statusFlags =
      if sockOf K N mode host serv = -1 then w0.statusFlags
      else Function.update w0.statusFlags (sockOf K N mode host serv) 0 := rfl

theorem statusFlags_worldOptioned :
    (worldOptioned K N mode host serv w0).statusFlags =
      (worldCreated K N mode host serv w0).statusFlags := by
  unfold worldOptioned; split_ifs <;> rfl

theorem statusFlags_worldAttached :
    (worldAttached K N mode host serv w0).statusFlags =
      (worldCreated K N mode host serv w0).statusFlags := by
  rw [← statusFlags_worldOptioned]; unfold worldAttached; split_ifs <;> rfl

theorem statusFlags_worldFreed :
    (worldFreed K N mode host serv w0).statusFlags =
      (worldCreated K N mode host serv w0).statusFlags := by
  rw [← statusFlags_worldAttached]; rfl

theorem statusFlags_worldSwitched :
    (worldSwitched K N mode host serv w0).statusFlags =
      if fcntlOf K N mode host serv ≠ -1 then
        Function.update (worldCreated K N mode host serv w0).statusFlags
          (sockOf K N mode host serv) K.O_NONBLOCK
      else (worldCreated K N mode host serv w0).statusFlags := by
  rw [← statusFlags_worldFreed]
  unfold worldSwitched sys_fcntl fcntlOf
  simp

end Fields

/-- The result of `uwrapSocket` in terms of the outcomes of the native calls. -/
theorem uwrapSocket_fst (K : SysConsts) (N : Native) (block mode : Int)
    (host serv : Option String) (w0 : World) :
    (uwrapSocket K N block mode host serv w0).1 =
      if gaiOf K N mode host serv ≠ 0 then -1
      else if sockOf K N mode host serv = -1 then -1
      else if bindConnectOf K N mode host serv ≠ 0 then -1
      else if block = UWRAP_NOBLOCK ∧ fcntlOf K N mode host serv = -1 then -1
      else sockOf K N mode host serv := by
  rw [uwrapSocket_eq]
  by_cases h1 : gaiOf K N mode host serv = 0
  · by_cases h2 : sockOf K N mode host serv = -1
    · simp [h1, h2]
    · by_cases h3 : bindConnectOf K N mode host serv = 0
      · by_cases h4 : block = UWRAP_NOBLOCK
        · by_cases h5 : fcntlOf K N mode host serv = -1
          · simp [h1, h2, h3, h4, h5]
          · simp [h1, h2, h3, h4, h5]
        · simp [h1, h2, h3, h4]
      · simp [h1, h2, h3]
  · simp [h1]

/-- The native calls made by a run of `uwrapSocket` are those of its path. -/
theorem uwrapSocket_calls (K : SysConsts) (N : Native) (block mode : Int)
    (host serv : Option String) (w0 : World) :
    callsSince w0 (uwrapSocket K N block mode host serv w0).2 =
      callsOfRun K N block mode host serv := by
  apply callsSince_of_trace
  rw [uwrapSocket_eq]
  unfold callsOfRun
  by_cases h1 : gaiOf K N mode host serv = 0
  · by_cases h2 : sockOf K N mode host serv = -1
    · simp [h1, h2, trace_worldCreated]
    · by_cases h3 : bindConnectOf K N mode host serv = 0
      · by_cases h4 : block = UWRAP_NOBLOCK
        · by_cases h5 : fcntlOf K N mode host serv = -1
          · simp [h1, h2, h3, h4, h5, trace_uwrapClose, trace_worldSwitched, closeCall]
          · simp [h1, h2, h3, h4, h5, trace_worldSwitched]
        · simp [h1, h2, h3, h4, trace_worldFreed]
      · simp [h1, h2, h3, trace_uwrapClose, trace_worldAttached, closeCall]
  · simp [h1, trace_worldResolved]

/-- The open handles after a run of `uwrapSocket`. -/
theorem uwrapSocket_openSocks (K : SysConsts) (N : Native) (block mode : Int)
    (host serv : Option String) (w0 : World) :
    (uwrapSocket K N block mode host serv w0).2.openSocks =
      if gaiOf K N mode host serv ≠ 0 then w0.openSocks
      else if sockOf K N mode host serv = -1 then w0.openSocks
      else if bindConnectOf K N mode host serv ≠ 0 then
        (insert (sockOf K N mode host serv) w0.openSocks).erase (sockOf K N mode host serv)
      else if block = UWRAP_NOBLOCK ∧ fcntlOf K N mode host serv = -1 then
        (insert (sockOf K N mode host serv) w0.openSocks).erase (sockOf K N mode host serv)
      else insert (sockOf K N mode host serv) w0.openSocks := by
  rw [uwrapSocket_eq]
  by_cases h1 : gaiOf K N mode host serv = 0
  · by_cases h2 : sockOf K N mode host serv = -1
    · simp [h1, h2, openSocks_worldCreated]
    · by_cases h3 : bindConnectOf K N mode host serv = 0
      · by_cases h4 : block = UWRAP_NOBLOCK
        · by_cases h5 : fcntlOf K N mode host serv = -1
          · simp [h1, h2, h3, h4, h5, openSocks_uwrapClose, openSocks_worldSwitched,
              openSocks_worldCreated]
          · simp [h1, h2, h3, h4, h5, openSocks_worldSwitched, openSocks_worldCreated]
        · simp [h1, h2, h3, h4, openSocks_worldFreed, openSocks_worldCreated]
      · simp [h1, h2, h3, openSocks_uwrapClose, openSocks_worldAttached,
          openSocks_worldCreated]
  · simp [h1, openSocks_worldResolved]

/-- The resolver results still owned after a run of `uwrapSocket`. -/
theorem uwrapSocket_resolverLive (K : SysConsts) (N : Native) (block mode : Int)
    (host serv : Option String) (w0 : World) :
    (uwrapSocket K N block mode host serv w0).2.resolverLive =
      if gaiOf K N mode host serv ≠ 0 then w0.resolverLive
      else if sockOf K N mode host serv = -1 then
        resultOf K N mode host serv :: w0.resolverLive
      else if bindConnectOf K N mode host serv ≠ 0 then
        resultOf K N mode host serv :: w0.resolverLive
      else w0.resolverLive := by
  rw [uwrapSocket_eq]
  by_cases h1 : gaiOf K N mode host serv = 0
  · by_cases h2 : sockOf K N mode host serv = -1
    · simp [h1, h2, resolverLive_worldCreated, resolverLive_worldResolved]
    · by_cases h3 : bindConnectOf K N mode host serv = 0
      · by_cases h4 : block = UWRAP_NOBLOCK
        · by_cases h5 : fcntlOf K N mode host serv = -1
          · simp [h1, h2, h3, h4, h5, resolverLive_uwrapClose, resolverLive_worldSwitched,
              resolverLive_worldResolved]
          · simp [h1, h2, h3, h4, h5, resolverLive_worldSwitched, resolverLive_worldResolved]
        · simp [h1, h2, h3, h4, resolverLive_worldFreed, resolverLive_worldResolved]
      · simp [h1, h2, h3, resolverLive_uwrapClose, resolverLive_worldAttached,
          resolverLive_worldResolved]
  · simp [h1, resolverLive_worldResolved]

/-- The file status flags of the returned handle after a successful run. -/
theorem uwrapSocket_statusFlags (K : SysConsts) (N : Native) (block mode : Int)
    (host serv : Option String) (w0 : World)
    (h : (uwrapSocket K N block mode host serv w0).1 ≠ -1) :
    (uwrapSocket K N block mode host serv w0).2.statusFlags
        (uwrapSocket K N block mode host serv w0).1 =
      if block = UWRAP_NOBLOCK then K.O_NONBLOCK else 0 := by
  rw [uwrapSocket_fst] at h
  rw [uwrapSocket_eq]
  by_cases h1 : gaiOf K N mode host serv = 0
  · by_cases h2 : sockOf K N mode host serv = -1
    · simp [h1, h2] at h
    · by_cases h3 : bindConnectOf K N mode host serv = 0
      · by_cases h4 : block = UWRAP_NOBLOCK
        · by_cases h5 : fcntlOf K N mode host serv = -1
          · simp [h1, h2, h3, h4, h5] at h
          · simp [h1, h2, h3, h4, h5, statusFlags_worldSwitched]
        · simp [h1, h2, h3, h4, statusFlags_worldFreed, statusFlags_worldCreated]
      · simp [h1, h2, h3] at h
  · simp [h1] at h

/-- Witness of `uwrapSocket_statusFlags`: a non-blocking server socket. -/
theorem uwrapSocket_statusFlags_witness :
    (uwrapSocket linuxConsts nativeOk UWRAP_NOBLOCK UWRAP_BIND none (some "1728") world0).1 ≠ -1 ∧
    (uwrapSocket linuxConsts nativeOk UWRAP_NOBLOCK UWRAP_BIND none (some "1728") world0).2.statusFlags
        (uwrapSocket linuxConsts nativeOk UWRAP_NOBLOCK UWRAP_BIND none (some "1728") world0).1 =
      if UWRAP_NOBLOCK = UWRAP_NOBLOCK then linuxConsts.O_NONBLOCK else 0 :=
  ⟨by decide,
   uwrapSocket_statusFlags linuxConsts nativeOk UWRAP_NOBLOCK UWRAP_BIND none (some "1728") world0
     (by decide)⟩

/-! ## Selecting the calls to one native function -/

theorem callsTo_nil (k : CallKind) : callsTo k [] = [] := rfl

theorem callsTo_cons (k : CallKind) (c : Call) (cs : List Call) :
    callsTo k (c :: cs) = if c.kind = k then c :: callsTo k cs else callsTo k cs := by
  unfold callsTo
  by_cases h : c.kind = k <;> simp [List.filter_cons, h]

theorem callsTo_append (k : CallKind) (cs ds : List Call) :
    callsTo k (cs ++ ds) = callsTo k cs ++ callsTo k ds := by
  unfold callsTo
  exact List.filter_append _ _

@[simp]
theorem kind_gaiCall (K : SysConsts) (mode : Int) (host serv : Option String) :
    (gaiCall K mode host serv).kind = CallKind.getaddrinfo := rfl

@[simp]
theorem kind_socketCall (K : SysConsts) (N : Native) (mode : Int)
    (host serv : Option String) :
    (socketCall K N mode host serv).kind = CallKind.socket := rfl

@[simp]
theorem kind_freeCall (K : SysConsts) (N : Native) (mode : Int)
    (host serv : Option String) :
    (freeCall K N mode host serv).kind = CallKind.freeaddrinfo := rfl

@[simp]
theorem kind_switchCall (K : SysConsts) (N : Native) (mode : Int)
    (host serv : Option String) :
    (switchCall K N mode host serv).kind = CallKind.fcntl := rfl

@[simp]
theorem kind_closeCall (K : SysConsts) (N : Native) (mode : Int)
    (host serv : Option String) :
    (closeCall K N mode host serv).kind = CallKind.close := rfl

@[simp]
theorem kind_close (s : Int) : (Call.close s).kind = CallKind.close := rfl

@[simp]
theorem kind_freeaddrinfo (r : AddrList) :
    (Call.freeaddrinfo r).kind = CallKind.freeaddrinfo := rfl

@[simp]
theorem kind_bind (s : Int) (a : Option Bytes) (l : Nat) :
    (Call.bind s a l).kind = CallKind.bind := rfl

@[simp]
theorem kind_connect (s : Int) (a : Option Bytes) (l : Nat) :
    (Call.connect s a l).kind = CallKind.connect := rfl

@[simp]
theorem kind_fcntl (s c a e : Int) : (Call.fcntl s c a e).kind = CallKind.fcntl := rfl

theorem kind_attachCall (K : SysConsts) (N : Native) (mode : Int) (host serv : Option String) :
    (attachCall K N mode host serv).kind =
      if mode = UWRAP_BIND then CallKind.bind else CallKind.connect := by
  unfold attachCall; split_ifs <;> rfl

theorem kind_attachCall_ne_close (K : SysConsts) (N : Native) (mode : Int)
    (host serv : Option String) :
    ¬ (attachCall K N mode host serv).kind = CallKind.close := by
  rw [kind_attachCall]; split_ifs <;> simp

theorem callsTo_optCalls (K : SysConsts) (N : Native) (mode : Int) (host serv : Option String)
    (k : CallKind) (h : k ≠ CallKind.setsockopt) :
    callsTo k (optCalls K N mode host serv) = [] := by
  unfold optCalls
  split_ifs
  · rw [callsTo_cons, callsTo_nil]
    simp [Call.kind, Ne.symm h]
  · rfl

/-! ## Socket construction: the claims -/

/-- C3: `uwrapSocket` returns `-1` if and only if resolution fails
(`getaddrinfo` non-zero), socket creation fails (`socket` returns `-1`),
bind/connect gives a non-zero result, or, with `block = UWRAP_NOBLOCK`, the
non-blocking switch fails (`fcntl` returns `-1`); in every other case it
returns the handle `socket()` produced, which is not `-1`; and replacing the
outcome of `setsockopt` by any other never changes the result. -/
theorem C3_uwrapSocket_result (K : SysConsts) (N : Native) (block mode : Int)
    (host serv : Option String) (w0 : World) :
    ((uwrapSocket K N block mode host serv w0).1 = -1 ↔
      (gaiOf K N mode host serv ≠ 0 ∨ sockOf K N mode host serv = -1 ∨
        bindConnectOf K N mode host serv ≠ 0 ∨
        (block = UWRAP_NOBLOCK ∧ fcntlOf K N mode host serv = -1))) ∧
    ((uwrapSocket K N block mode host serv w0).1 ≠ -1 →
      (uwrapSocket K N block mode host serv w0).1 = sockOf K N mode host serv ∧
      sockOf K N mode host serv ≠ -1) ∧
    (∀ so : Int → Int → Int → Int → Nat → Int,
      (uwrapSocket K { N with setsockopt := so } block mode host serv w0).1 =
        (uwrapSocket K N block mode host serv w0).1) := by
  refine ⟨?_, ?_, ?_⟩
  · rw [uwrapSocket_fst]
    by_cases h1 : gaiOf K N mode host serv = 0
    · by_cases h2 : sockOf K N mode host serv = -1
      · simp [h1, h2]
      · by_cases h3 : bindConnectOf K N mode host serv = 0
        · by_cases h4 : block = UWRAP_NOBLOCK ∧ fcntlOf K N mode host serv = -1
          · simp [h1, h2, h3, h4]
          · simp [h1, h2, h3, h4]
        · simp [h1, h2, h3]
    · simp [h1]
  · rw [uwrapSocket_fst]
    by_cases h1 : gaiOf K N mode host serv = 0
    · by_cases h2 : sockOf K N mode host serv = -1
      · simp [h1, h2]
      · by_cases h3 : bindConnectOf K N mode host serv = 0
        · by_cases h4 : block = UWRAP_NOBLOCK ∧ fcntlOf K N mode host serv = -1
          · simp [h1, h2, h3, h4]
          · simp [h1, h2, h3, h4]
        · simp [h1, h2, h3]
    · simp [h1]
  · intro so
    rw [uwrapSocket_fst, uwrapSocket_fst]
    rfl

/-- Witness of C3: with every native call succeeding the handle of `socket()`
is returned, and with a failing bind the result is `-1`. -/
theorem C3_uwrapSocket_result_witness :
    (uwrapSocket linuxConsts nativeOk UWRAP_NOBLOCK UWRAP_BIND none (some "1728") world0).1 = 3 ∧
    (uwrapSocket linuxConsts nativeBindFails UWRAP_BLOCK UWRAP_BIND none (some "1728") world0).1
      = -1 := by
  constructor
  · exact ((C3_uwrapSocket_result linuxConsts nativeOk UWRAP_NOBLOCK UWRAP_BIND none
      (some "1728") world0).2.1 (by decide)).1
  · exact (C3_uwrapSocket_result linuxConsts nativeBindFails UWRAP_BLOCK UWRAP_BIND none
      (some "1728") world0).1.mpr (Or.inr (Or.inr (Or.inl (by decide))))

/-- C4: provided `socket()` does not hand out a handle that is already open,
a run of `uwrapSocket` that returns `-1` leaves the set of open handles as it
was; a run that returns a handle leaves exactly that one new handle open; when
resolution fails no `socket()` call is made; on a failure after socket
creation the new socket is closed exactly once; and `close` is never called
on any other path or handle. -/
theorem C4_open_handles (K : SysConsts) (N : Native) (block mode : Int)
    (host serv : Option String) (w0 : World)
    (hfresh : sockOf K N mode host serv ∉ w0.openSocks) :
    ((uwrapSocket K N block mode host serv w0).1 = -1 →
      (uwrapSocket K N block mode host serv w0).2.openSocks = w0.openSocks) ∧
    ((uwrapSocket K N block mode host serv w0).1 ≠ -1 →
      (uwrapSocket K N block mode host serv w0).2.openSocks =
        insert (uwrapSocket K N block mode host serv w0).1 w0.openSocks ∧
      (uwrapSocket K N block mode host serv w0).1 ∉ w0.openSocks) ∧
    (gaiOf K N mode host serv ≠ 0 →
      callsTo CallKind.socket (callsSince w0 (uwrapSocket K N block mode host serv w0).2) = []) ∧
    (gaiOf K N mode host serv = 0 → sockOf K N mode host serv ≠ -1 →
      (uwrapSocket K N block mode host serv w0).1 = -1 →
      callsTo CallKind.close (callsSince w0 (uwrapSocket K N block mode host serv w0).2) =
        [Call.close (sockOf K N mode host serv)]) ∧
    ((gaiOf K N mode host serv ≠ 0 ∨ sockOf K N mode host serv = -1 ∨
        (uwrapSocket K N block mode host serv w0).1 ≠ -1) →
      callsTo CallKind.close (callsSince w0 (uwrapSocket K N block mode host serv w0).2) = []) := by
  rw [uwrapSocket_fst, uwrapSocket_openSocks, uwrapSocket_calls]
  unfold callsOfRun
  by_cases h1 : gaiOf K N mode host serv = 0
  · by_cases h2 : sockOf K N mode host serv = -1
    · simp [h1, h2, callsTo_cons, callsTo_nil]
    · by_cases h3 : bindConnectOf K N mode host serv = 0
      · by_cases h4 : block = UWRAP_NOBLOCK
        · by_cases h5 : fcntlOf K N mode host serv = -1
          · simp [h1, h2, h3, h4, h5, hfresh, callsTo_cons, callsTo_nil, callsTo_append,
              callsTo_optCalls, kind_attachCall_ne_close, closeCall, kind_close, Finset.erase_insert]
          · simp [h1, h2, h3, h4, h5, hfresh, callsTo_cons, callsTo_nil, callsTo_append,
              callsTo_optCalls, kind_attachCall_ne_close]
        · simp [h1, h2, h3, h4, hfresh, callsTo_cons, callsTo_nil, callsTo_append,
            callsTo_optCalls, kind_attachCall_ne_close]
      · simp [h1, h2, h3, hfresh, callsTo_cons, callsTo_nil, callsTo_append,
          callsTo_optCalls, kind_attachCall_ne_close, closeCall, kind_close, Finset.erase_insert]
  · simp [h1, callsTo_cons, callsTo_nil]

/-- Witness of C4: a failing bind in a process holding descriptors 0, 1, 2. -/
theorem C4_open_handles_witness :
    sockOf linuxConsts nativeBindFails UWRAP_BIND none (some "1728") ∉ world0.openSocks ∧
    (uwrapSocket linuxConsts nativeBindFails UWRAP_BLOCK UWRAP_BIND none
      (some "1728") world0).2.openSocks = world0.openSocks :=
  ⟨by decide,
   (C4_open_handles linuxConsts nativeBindFails UWRAP_BLOCK UWRAP_BIND none (some "1728") world0
     (by decide)).1 (by decide)⟩

/-- C5: when resolution succeeds and then either `socket()` fails or
bind/connect fails, `uwrapSocket` returns `-1` without any `freeaddrinfo`
call, and the resolver result is still owned by the resolver on return. -/
theorem C5_resolver_result_not_released (K : SysConsts) (N : Native) (block mode : Int)
    (host serv : Option String) (w0 : World)
    (hg : gaiOf K N mode host serv = 0)
    (hf : sockOf K N mode host serv = -1 ∨ bindConnectOf K N mode host serv ≠ 0) :
    (uwrapSocket K N block mode host serv w0).1 = -1 ∧
    callsTo CallKind.freeaddrinfo
      (callsSince w0 (uwrapSocket K N block mode host serv w0).2) = [] ∧
    (uwrapSocket K N block mode host serv w0).2.resolverLive =
      resultOf K N mode host serv :: w0.resolverLive := by
  have hatt : ¬ (attachCall K N mode host serv).kind = CallKind.freeaddrinfo := by
    rw [kind_attachCall]; split_ifs <;> simp
  rw [uwrapSocket_fst, uwrapSocket_resolverLive, uwrapSocket_calls]
  unfold callsOfRun
  by_cases h2 : sockOf K N mode host serv = -1
  · simp [hg, h2, callsTo_cons, callsTo_nil]
  · have h3 : ¬ bindConnectOf K N mode host serv = 0 := by
      rcases hf with h | h
      · exact absurd h h2
      · exact h
    simp [hg, h2, h3, callsTo_cons, callsTo_nil, callsTo_append, callsTo_optCalls, hatt]

/-- Witness of C5: a bind that fails (port in use) after a successful
resolution, and a `socket()` that fails after a successful resolution, both
leave the resolver result unreleased. -/
theorem C5_resolver_result_not_released_witness :
    (gaiOf linuxConsts nativeBindFails UWRAP_BIND none (some "1728") = 0 ∧
     bindConnectOf linuxConsts nativeBindFails UWRAP_BIND none (some "1728") ≠ 0 ∧
     (uwrapSocket linuxConsts nativeBindFails UWRAP_NOBLOCK UWRAP_BIND none
       (some "1728") world0).1 = -1 ∧
     callsTo CallKind.freeaddrinfo (callsSince world0
       (uwrapSocket linuxConsts nativeBindFails UWRAP_NOBLOCK UWRAP_BIND none
         (some "1728") world0).2) = [] ∧
     (uwrapSocket linuxConsts nativeBindFails UWRAP_NOBLOCK UWRAP_BIND none
       (some "1728") world0).2.resolverLive =
       resultOf linuxConsts nativeBindFails UWRAP_BIND none (some "1728") ::
         world0.resolverLive) ∧
    (gaiOf linuxConsts nativeSocketFails UWRAP_CONNECT (some "::1") (some "1728") = 0 ∧
     sockOf linuxConsts nativeSocketFails UWRAP_CONNECT (some "::1") (some "1728") = -1 ∧
     (uwrapSocket linuxConsts nativeSocketFails UWRAP_BLOCK UWRAP_CONNECT (some "::1")
       (some "1728") world0).2.resolverLive =
       resultOf linuxConsts nativeSocketFails UWRAP_CONNECT (some "::1") (some "1728") ::
         world0.resolverLive) :=
  ⟨⟨by decide, by decide,
    C5_resolver_result_not_released linuxConsts nativeBindFails UWRAP_NOBLOCK UWRAP_BIND none
      (some "1728") world0 (by decide) (Or.inr (by decide))⟩,
   ⟨by decide, by decide,
    (C5_resolver_result_not_released linuxConsts nativeSocketFails UWRAP_BLOCK UWRAP_CONNECT
      (some "::1") (some "1728") world0 (by decide) (Or.inl (by decide))).2.2⟩⟩

/-- When resolution, socket creation and bind/connect all succeed, the
resolver result is released by exactly one `freeaddrinfo` call and is no
longer owned by the resolver on return, whatever the non-blocking switch
does. -/
theorem resolver_result_released_after_attach (K : SysConsts) (N : Native) (block mode : Int)
    (host serv : Option String) (w0 : World)
    (hg : gaiOf K N mode host serv = 0) (hs : sockOf K N mode host serv ≠ -1)
    (hb : bindConnectOf K N mode host serv = 0) :
    callsTo CallKind.freeaddrinfo
      (callsSince w0 (uwrapSocket K N block mode host serv w0).2) =
        [Call.freeaddrinfo (resultOf K N mode host serv)] ∧
    (uwrapSocket K N block mode host serv w0).2.resolverLive = w0.resolverLive := by
  have hatt : ¬ (attachCall K N mode host serv).kind = CallKind.freeaddrinfo := by
    rw [kind_attachCall]; split_ifs <;> simp
  rw [uwrapSocket_resolverLive, uwrapSocket_calls]
  unfold callsOfRun
  by_cases h4 : block = UWRAP_NOBLOCK
  · by_cases h5 : fcntlOf K N mode host serv = -1
    · simp [hg, hs, hb, h4, h5, callsTo_cons, callsTo_nil, callsTo_append, callsTo_optCalls,
        hatt, freeCall]
    · simp [hg, hs, hb, h4, h5, callsTo_cons, callsTo_nil, callsTo_append, callsTo_optCalls,
        hatt, freeCall]
  · simp [hg, hs, hb, h4, callsTo_cons, callsTo_nil, callsTo_append, callsTo_optCalls,
      hatt, freeCall]

/-- Witness of `resolver_result_released_after_attach`: a successful
construction. -/
theorem resolver_result_released_after_attach_witness :
    (uwrapSocket linuxConsts nativeOk UWRAP_NOBLOCK UWRAP_CONNECT (some "::1")
      (some "1728") world0).2.resolverLive = [] :=
  (resolver_result_released_after_attach linuxConsts nativeOk UWRAP_NOBLOCK UWRAP_CONNECT
    (some "::1") (some "1728") world0 (by decide) (by decide) (by decide)).2

/-- C6: in mode `UWRAP_BIND` the only resolver call carries the hints
`AI_PASSIVE`, `AF_UNSPEC`, `SOCK_DGRAM`, `connect` is never called, and the
created socket is bound (one `bind` call) to the address of the first
candidate; in mode `UWRAP_CONNECT` the only resolver call carries flags `0`
with the same family and type hints, `bind` is never called, and the created
socket is connected (one `connect` call) to the address of the first
candidate; in both modes the only `socket()` call uses the family, type and
protocol of the first candidate. -/
theorem C6_mode_selection (K : SysConsts) (N : Native) (block : Int)
    (host serv : Option String) (w0 : World) :
    (callsTo CallKind.getaddrinfo
        (callsSince w0 (uwrapSocket K N block UWRAP_BIND host serv w0).2) =
      [Call.getaddrinfo host serv ⟨K.AI_PASSIVE, K.AF_UNSPEC, K.SOCK_DGRAM, 0, 0, none, none⟩] ∧
     callsTo CallKind.connect
        (callsSince w0 (uwrapSocket K N block UWRAP_BIND host serv w0).2) = [] ∧
     (gaiOf K N UWRAP_BIND host serv = 0 →
       callsTo CallKind.socket
          (callsSince w0 (uwrapSocket K N block UWRAP_BIND host serv w0).2) =
        [Call.socket (resultOf K N UWRAP_BIND host serv).first.ai_family
          (resultOf K N UWRAP_BIND host serv).first.ai_socktype
          (resultOf K N UWRAP_BIND host serv).first.ai_protocol]) ∧
     (gaiOf K N UWRAP_BIND host serv = 0 → sockOf K N UWRAP_BIND host serv ≠ -1 →
       callsTo CallKind.bind
          (callsSince w0 (uwrapSocket K N block UWRAP_BIND host serv w0).2) =
        [Call.bind (sockOf K N UWRAP_BIND host serv)
          (resultOf K N UWRAP_BIND host serv).first.ai_addr
          (resultOf K N UWRAP_BIND host serv).first.ai_addrlen])) ∧
    (callsTo CallKind.getaddrinfo
        (callsSince w0 (uwrapSocket K N block UWRAP_CONNECT host serv w0).2) =
      [Call.getaddrinfo host serv ⟨0, K.AF_UNSPEC, K.SOCK_DGRAM, 0, 0, none, none⟩] ∧
     callsTo CallKind.bind
        (callsSince w0 (uwrapSocket K N block UWRAP_CONNECT host serv w0).2) = [] ∧
     (gaiOf K N UWRAP_CONNECT host serv = 0 →
       callsTo CallKind.socket
          (callsSince w0 (uwrapSocket K N block UWRAP_CONNECT host serv w0).2) =
        [Call.socket (resultOf K N UWRAP_CONNECT host serv).first.ai_family
          (resultOf K N UWRAP_CONNECT host serv).first.ai_socktype
          (resultOf K N UWRAP_CONNECT host serv).first.ai_protocol]) ∧
     (gaiOf K N UWRAP_CONNECT host serv = 0 → sockOf K N UWRAP_CONNECT host serv ≠ -1 →
       callsTo CallKind.connect
          (callsSince w0 (uwrapSocket K N block UWRAP_CONNECT host serv w0).2) =
        [Call.connect (sockOf K N UWRAP_CONNECT host serv)
          (resultOf K N UWRAP_CONNECT host serv).first.ai_addr
          (resultOf K N UWRAP_CONNECT host serv).first.ai_addrlen])) := by
  have hB : ∀ N : Native, attachCall K N UWRAP_BIND host serv =
      Call.bind (sockOf K N UWRAP_BIND host serv)
        (resultOf K N UWRAP_BIND host serv).first.ai_addr
        (resultOf K N UWRAP_BIND host serv).first.ai_addrlen := fun _ => rfl
  have hC : ∀ N : Native, attachCall K N UWRAP_CONNECT host serv =
      Call.connect (sockOf K N UWRAP_CONNECT host serv)
        (resultOf K N UWRAP_CONNECT host serv).first.ai_addr
        (resultOf K N UWRAP_CONNECT host serv).first.ai_addrlen := fun _ => rfl
  have hgB : gaiCall K UWRAP_BIND host serv =
      Call.getaddrinfo host serv ⟨K.AI_PASSIVE, K.AF_UNSPEC, K.SOCK_DGRAM, 0, 0, none, none⟩ :=
    rfl
  have hgC : gaiCall K UWRAP_CONNECT host serv =
      Call.getaddrinfo host serv ⟨0, K.AF_UNSPEC, K.SOCK_DGRAM, 0, 0, none, none⟩ := rfl
  have key : ∀ mode : Int,
      callsTo CallKind.getaddrinfo (callsOfRun K N block mode host serv) =
        [gaiCall K mode host serv] ∧
      (gaiOf K N mode host serv = 0 →
        callsTo CallKind.socket (callsOfRun K N block mode host serv) =
          [socketCall K N mode host serv]) ∧
      (∀ k : CallKind, (k = CallKind.bind ∨ k = CallKind.connect) →
        callsTo k (callsOfRun K N block mode host serv) =
          if gaiOf K N mode host serv = 0 ∧ sockOf K N mode host serv ≠ -1 then
            callsTo k [attachCall K N mode host serv]
          else []) := by
    intro mode
    have hatt1 : ¬ (attachCall K N mode host serv).kind = CallKind.getaddrinfo := by
      rw [kind_attachCall]; split_ifs <;> simp
    have hatt2 : ¬ (attachCall K N mode host serv).kind = CallKind.socket := by
      rw [kind_attachCall]; split_ifs <;> simp
    unfold callsOfRun
    by_cases h1 : gaiOf K N mode host serv = 0
    · by_cases h2 : sockOf K N mode host serv = -1
      · refine ⟨?_, ?_, ?_⟩
        · simp [h1, h2, callsTo_cons, callsTo_nil]
        · simp [h1, h2, callsTo_cons, callsTo_nil]
        · rintro k (rfl | rfl) <;> simp [h1, h2, callsTo_cons, callsTo_nil]
      · by_cases h3 : bindConnectOf K N mode host serv = 0
        · by_cases h4 : block = UWRAP_NOBLOCK
          · by_cases h5 : fcntlOf K N mode host serv = -1
            · refine ⟨?_, ?_, ?_⟩
              · simp [h1, h2, h3, h4, h5, callsTo_cons, callsTo_nil, callsTo_append,
                  callsTo_optCalls, hatt1]
              · simp [h1, h2, h3, h4, h5, callsTo_cons, callsTo_nil, callsTo_append,
                  callsTo_optCalls, hatt2]
              · rintro k (rfl | rfl) <;>
                  simp [h1, h2, h3, h4, h5, callsTo_cons, callsTo_nil, callsTo_append,
                    callsTo_optCalls]
            · refine ⟨?_, ?_, ?_⟩
              · simp [h1, h2, h3, h4, h5, callsTo_cons, callsTo_nil, callsTo_append,
                  callsTo_optCalls, hatt1]
              · simp [h1, h2, h3, h4, h5, callsTo_cons, callsTo_nil, callsTo_append,
                  callsTo_optCalls, hatt2]
              · rintro k (rfl | rfl) <;>
                  simp [h1, h2, h3, h4, h5, callsTo_cons, callsTo_nil, callsTo_append,
                    callsTo_optCalls]
          · refine ⟨?_, ?_, ?_⟩
            · simp [h1, h2, h3, h4, callsTo_cons, callsTo_nil, callsTo_append,
                callsTo_optCalls, hatt1]
            · simp [h1, h2, h3, h4, callsTo_cons, callsTo_nil, callsTo_append,
                callsTo_optCalls, hatt2]
            · rintro k (rfl | rfl) <;>
                simp [h1, h2, h3, h4, callsTo_cons, callsTo_nil, callsTo_append,
                  callsTo_optCalls]
        · refine ⟨?_, ?_, ?_⟩
          · simp [h1, h2, h3, callsTo_cons, callsTo_nil, callsTo_append,
              callsTo_optCalls, hatt1]
          · simp [h1, h2, h3, callsTo_cons, callsTo_nil, callsTo_append,
              callsTo_optCalls, hatt2]
          · rintro k (rfl | rfl) <;>
              simp [h1, h2, h3, callsTo_cons, callsTo_nil, callsTo_append,
                callsTo_optCalls]
    · refine ⟨?_, ?_, ?_⟩
      · simp [h1, callsTo_cons, callsTo_nil]
      · intro h; exact absurd h h1
      · rintro k (rfl | rfl) <;> simp [h1, callsTo_cons, callsTo_nil]
  simp only [uwrapSocket_calls]
  refine ⟨⟨?_, ?_, ?_, ?_⟩, ?_, ?_, ?_, ?_⟩
  · rw [(key UWRAP_BIND).1, hgB]
  · rw [(key UWRAP_BIND).2.2 CallKind.connect (Or.inr rfl), hB]
    split_ifs <;> simp [callsTo_cons, callsTo_nil]
  · intro h; rw [(key UWRAP_BIND).2.1 h]; rfl
  · intro h1 h2
    rw [(key UWRAP_BIND).2.2 CallKind.bind (Or.inl rfl), hB]
    simp [h1, h2, callsTo_cons, callsTo_nil]
  · rw [(key UWRAP_CONNECT).1, hgC]
  · rw [(key UWRAP_CONNECT).2.2 CallKind.bind (Or.inl rfl), hC]
    split_ifs <;> simp [callsTo_cons, callsTo_nil]
  · intro h; rw [(key UWRAP_CONNECT).2.1 h]; rfl
  · intro h1 h2
    rw [(key UWRAP_CONNECT).2.2 CallKind.connect (Or.inr rfl), hC]
    simp [h1, h2, callsTo_cons, callsTo_nil]

/-- Witness of C6: a server socket is bound, not connected, to the address
of the sample candidate. -/
theorem C6_mode_selection_witness :
    callsTo CallKind.bind (callsSince world0
      (uwrapSocket linuxConsts nativeOk UWRAP_BLOCK UWRAP_BIND none (some "1728") world0).2) =
      [Call.bind 3 sampleCandidate.ai_addr 16] ∧
    callsTo CallKind.connect (callsSince world0
      (uwrapSocket linuxConsts nativeOk UWRAP_BLOCK UWRAP_BIND none (some "1728") world0).2) =
      [] :=
  ⟨(C6_mode_selection linuxConsts nativeOk UWRAP_BLOCK none (some "1728") world0).1.2.2.2
      (by decide) (by decide),
   (C6_mode_selection linuxConsts nativeOk UWRAP_BLOCK none (some "1728") world0).1.2.1⟩

/-- C7: with `block = UWRAP_NOBLOCK`, a run that returns a handle has made
the calls bind/connect, `freeaddrinfo`, `fcntl(handle, F_SETFL, O_NONBLOCK, 1)`
last and in this order, bind/connect and the switch have succeeded, and the
status flags of the returned handle are `O_NONBLOCK`; with
`block = UWRAP_BLOCK` no `fcntl` call is made, the returned handle keeps the
status flags `0` it was created with, and once resolution, socket creation
and bind/connect have succeeded the handle of `socket()` is returned. -/
theorem C7_blocking_selection (K : SysConsts) (N : Native) (mode : Int)
    (host serv : Option String) (w0 : World) :
    ((uwrapSocket K N UWRAP_NOBLOCK mode host serv w0).1 ≠ -1 →
      (∃ pre, callsSince w0 (uwrapSocket K N UWRAP_NOBLOCK mode host serv w0).2 =
        pre ++ [attachCall K N mode host serv, freeCall K N mode host serv,
          Call.fcntl (uwrapSocket K N UWRAP_NOBLOCK mode host serv w0).1
            K.F_SETFL K.O_NONBLOCK 1]) ∧
      bindConnectOf K N mode host serv = 0 ∧
      N.fcntl (uwrapSocket K N UWRAP_NOBLOCK mode host serv w0).1 K.F_SETFL K.O_NONBLOCK 1
        ≠ -1 ∧
      (uwrapSocket K N UWRAP_NOBLOCK mode host serv w0).2.statusFlags
        (uwrapSocket K N UWRAP_NOBLOCK mode host serv w0).1 = K.O_NONBLOCK) ∧
    callsTo CallKind.fcntl
      (callsSince w0 (uwrapSocket K N UWRAP_BLOCK mode host serv w0).2) = [] ∧
    ((uwrapSocket K N UWRAP_BLOCK mode host serv w0).1 ≠ -1 →
      (uwrapSocket K N UWRAP_BLOCK mode host serv w0).2.statusFlags
        (uwrapSocket K N UWRAP_BLOCK mode host serv w0).1 = 0) ∧
    (gaiOf K N mode host serv = 0 → sockOf K N mode host serv ≠ -1 →
      bindConnectOf K N mode host serv = 0 →
      (uwrapSocket K N UWRAP_BLOCK mode host serv w0).1 = sockOf K N mode host serv ∧
      (uwrapSocket K N UWRAP_BLOCK mode host serv w0).1 ≠ -1) := by
  have hne : ¬ UWRAP_BLOCK = UWRAP_NOBLOCK := by decide
  have hatt : ¬ (attachCall K N mode host serv).kind = CallKind.fcntl := by
    rw [kind_attachCall]; split_ifs <;> simp
  refine ⟨?_, ?_, ?_, ?_⟩
  · intro h
    have hs := uwrapSocket_statusFlags K N UWRAP_NOBLOCK mode host serv w0 h
    rw [if_pos rfl] at hs
    refine ⟨?_, ?_, ?_, hs⟩
    · rw [uwrapSocket_calls]
      rw [uwrapSocket_fst] at h ⊢
      unfold callsOfRun
      by_cases h1 : gaiOf K N mode host serv = 0
      · by_cases h2 : sockOf K N mode host serv = -1
        · simp [h1, h2] at h
        · by_cases h3 : bindConnectOf K N mode host serv = 0
          · by_cases h5 : fcntlOf K N mode host serv = -1
            · simp [h1, h2, h3, h5] at h
            · refine ⟨[gaiCall K mode host serv, socketCall K N mode host serv] ++
                optCalls K N mode host serv, ?_⟩
              simp [h1, h2, h3, h5, switchCall]
          · simp [h1, h2, h3] at h
      · simp [h1] at h
    · rw [uwrapSocket_fst] at h
      by_contra h3
      by_cases h1 : gaiOf K N mode host serv = 0
      · by_cases h2 : sockOf K N mode host serv = -1
        · simp [h1, h2] at h
        · simp [h1, h2, h3] at h
      · simp [h1] at h
    · rw [uwrapSocket_fst] at h ⊢
      by_cases h1 : gaiOf K N mode host serv = 0
      · by_cases h2 : sockOf K N mode host serv = -1
        · simp [h1, h2] at h
        · by_cases h3 : bindConnectOf K N mode host serv = 0
          · by_cases h5 : fcntlOf K N mode host serv = -1
            · simp [h1, h2, h3, h5] at h
            · simp only [h1, h2, h3, h5, ne_eq, not_true_eq_false, if_false, and_false]
              exact h5
          · simp [h1, h2, h3] at h
      · simp [h1] at h
  · rw [uwrapSocket_calls]
    unfold callsOfRun
    by_cases h1 : gaiOf K N mode host serv = 0
    · by_cases h2 : sockOf K N mode host serv = -1
      · simp [h1, h2, callsTo_cons, callsTo_nil]
      · by_cases h3 : bindConnectOf K N mode host serv = 0
        · simp [h1, h2, h3, hne, callsTo_cons, callsTo_nil, callsTo_append, callsTo_optCalls,
            hatt]
        · simp [h1, h2, h3, callsTo_cons, callsTo_nil, callsTo_append, callsTo_optCalls,
            hatt]
    · simp [h1, callsTo_cons, callsTo_nil]
  · intro h
    have hs := uwrapSocket_statusFlags K N UWRAP_BLOCK mode host serv w0 h
    rw [if_neg hne] at hs
    exact hs
  · intro h1 h2 h3
    rw [uwrapSocket_fst]
    simp [h1, h2, h3, hne]

/-- Witness of C7: a non-blocking construction returns handle 3 with status
flags `O_NONBLOCK`. -/
theorem C7_blocking_selection_witness :
    (uwrapSocket linuxConsts nativeOk UWRAP_NOBLOCK UWRAP_BIND none (some "1728") world0).1 ≠ -1 ∧
    (uwrapSocket linuxConsts nativeOk UWRAP_NOBLOCK UWRAP_BIND none (some "1728") world0).2.statusFlags
      (uwrapSocket linuxConsts nativeOk UWRAP_NOBLOCK UWRAP_BIND none (some "1728") world0).1 =
      linuxConsts.O_NONBLOCK :=
  ⟨by decide,
   ((C7_blocking_selection linuxConsts nativeOk UWRAP_BIND none (some "1728") world0).1
     (by decide)).2.2.2⟩

/-! ## Readiness wait: arithmetic of `double` -/

theorem binExp_eq (x : ℚ) (e : Int) (h1 : (2 : ℚ) ^ e ≤ |x|) (h2 : |x| < (2 : ℚ) ^ (e + 1)) :
    binExp x = e := by
  have hpos : 0 < |x| := lt_of_lt_of_le (zpow_pos (by norm_num) e) h1
  unfold binExp
  apply le_antisymm
  · have := (Int.lt_zpow_iff_log_lt (b := 2) (by norm_num) (x := e + 1) hpos).mp (by exact_mod_cast h2)
    omega
  · exact (Int.zpow_le_iff_le_log (b := 2) (by norm_num) hpos).mp (by exact_mod_cast h1)

theorem ulp_pos (x : ℚ) : 0 < ulp x := zpow_pos (by norm_num) _

theorem roundHalfEven_ge (y : ℚ) : ⌊y⌋ ≤ roundHalfEven y := by
  unfold roundHalfEven; split_ifs <;> omega

theorem roundHalfEven_le (y : ℚ) : roundHalfEven y ≤ ⌈y⌉ := by
  unfold roundHalfEven
  have hfc := Int.floor_le_ceil y
  split_ifs with h1 h2 h3
  · exact hfc
  · have : (⌊y⌋ : ℚ) < y := by linarith
    have := Int.lt_ceil.mpr this
    omega
  · exact hfc
  · have hh : y - (⌊y⌋ : ℚ) = 1 / 2 := le_antisymm (not_lt.mp h2) (not_lt.mp h1)
    have : (⌊y⌋ : ℚ) < y := by linarith
    have := Int.lt_ceil.mpr this
    omega

theorem roundHalfEven_intCast (n : Int) : roundHalfEven (n : ℚ) = n := by
  unfold roundHalfEven; simp

theorem roundHalfEven_of_near (y : ℚ) (n : Int) (h1 : (n : ℚ) - 1 / 2 < y)
    (h2 : y < (n : ℚ) + 1 / 2) : roundHalfEven y = n := by
  unfold roundHalfEven
  by_cases hc : (n : ℚ) ≤ y
  · have hf : ⌊y⌋ = n := by
      rw [Int.floor_eq_iff]; constructor
      · exact hc
      · linarith
    rw [hf, if_pos (by linarith)]
  · have hf : ⌊y⌋ = n - 1 := by
      rw [Int.floor_eq_iff]; push_cast; constructor
      · linarith
      · linarith [not_le.mp hc]
    rw [hf]; push_cast
    rw [if_neg (by linarith), if_pos (by linarith)]
    ring

/-- Rounding does not cross a multiple of the unit in the last place. -/
theorem roundDouble_ge_of_grid (x : ℚ) (n : Int) (h : (n : ℚ) * ulp x ≤ x) :
    (n : ℚ) * ulp x ≤ roundDouble x := by
  unfold roundDouble
  have hq := ulp_pos x
  have h1 : (n : ℚ) ≤ x / ulp x := (le_div_iff₀ hq).mpr h
  have h2 : n ≤ ⌊x / ulp x⌋ := Int.le_floor.mpr h1
  have h3 : n ≤ roundHalfEven (x / ulp x) := le_trans h2 (roundHalfEven_ge _)
  have h4 : (n : ℚ) ≤ (roundHalfEven (x / ulp x) : ℚ) := by exact_mod_cast h3
  exact mul_le_mul_of_nonneg_right h4 (le_of_lt hq)

theorem roundDouble_le_of_grid (x : ℚ) (n : Int) (h : x ≤ (n : ℚ) * ulp x) :
    roundDouble x ≤ (n : ℚ) * ulp x := by
  unfold roundDouble
  have hq := ulp_pos x
  have h1 : x / ulp x ≤ (n : ℚ) := (div_le_iff₀ hq).mpr h
  have h2 : ⌈x / ulp x⌉ ≤ n := Int.ceil_le.mpr h1
  have h3 : roundHalfEven (x / ulp x) ≤ n := le_trans (roundHalfEven_le _) h2
  have h4 : (roundHalfEven (x / ulp x) : ℚ) ≤ (n : ℚ) := by exact_mod_cast h3
  exact mul_le_mul_of_nonneg_right h4 (le_of_lt hq)

/-- When the exponent of the unit in the last place of `x` is at most `j`,
every `m * 2^j` is a multiple of that unit. -/
theorem grid_of_exp_le (x : ℚ) (m j : Int) (hj : max (binExp x) (-1022) - 52 ≤ j) :
    ∃ n : Int, (m : ℚ) * (2 : ℚ) ^ j = (n : ℚ) * ulp x := by
  obtain ⟨k, hk⟩ := Int.eq_ofNat_of_zero_le (sub_nonneg.mpr hj)
  refine ⟨m * 2 ^ k, ?_⟩
  unfold ulp
  have : j = (max (binExp x) (-1022) - 52) + (k : Int) := by omega
  rw [this, zpow_add₀ (by norm_num : (2 : ℚ) ≠ 0)]
  push_cast
  rw [zpow_natCast]
  ring

theorem binExp_le_of_lt (x : ℚ) (e : Int) (h0 : x ≠ 0) (h : |x| < (2 : ℚ) ^ (e + 1)) :
    binExp x ≤ e := by
  have hpos : 0 < |x| := abs_pos.mpr h0
  have := (Int.lt_zpow_iff_log_lt (b := 2) (by norm_num) (x := e + 1) hpos).mp
    (by exact_mod_cast h)
  unfold binExp
  omega

theorem binExp_ge_of_le (x : ℚ) (e : Int) (h : (2 : ℚ) ^ e ≤ |x|) : e ≤ binExp x := by
  have hpos : 0 < |x| := lt_of_lt_of_le (zpow_pos (by norm_num) e) h
  exact (Int.zpow_le_iff_le_log (b := 2) (by norm_num) hpos).mp (by exact_mod_cast h)

theorem roundDouble_zero : roundDouble 0 = 0 := by
  unfold roundDouble
  simp [roundHalfEven]

/-- Every `m * 2^j` with `|m| < 2^53` and `j` not below the exponent of the
smallest subnormal is represented exactly. -/
theorem isDouble_of_scaled (m j : Int) (hm : |m| < 2 ^ 53) (hj : -1074 ≤ j) :
    roundDouble ((m : ℚ) * (2 : ℚ) ^ j) = (m : ℚ) * (2 : ℚ) ^ j := by
  by_cases h0 : (m : ℚ) * (2 : ℚ) ^ j = 0
  · rw [h0, roundDouble_zero]
  · have hlt : |(m : ℚ) * (2 : ℚ) ^ j| < (2 : ℚ) ^ ((52 + j) + 1) := by
      rw [abs_mul, abs_of_pos (zpow_pos (by norm_num : (0 : ℚ) < 2) j)]
      have : (52 + j) + 1 = 53 + j := by ring
      rw [this, zpow_add₀ (by norm_num : (2 : ℚ) ≠ 0)]
      apply mul_lt_mul_of_pos_right _ (zpow_pos (by norm_num) j)
      have : ((|m| : Int) : ℚ) < ((2 ^ 53 : Int) : ℚ) := by exact_mod_cast hm
      rw [Int.cast_abs] at this
      calc |(m : ℚ)| < ((2 ^ 53 : Int) : ℚ) := this
        _ = (2 : ℚ) ^ (53 : Int) := by norm_num
    have he := binExp_le_of_lt _ (52 + j) h0 hlt
    obtain ⟨n, hn⟩ := grid_of_exp_le ((m : ℚ) * (2 : ℚ) ^ j) m j (by omega)
    have hx : ((m : ℚ) * (2 : ℚ) ^ j) / ulp ((m : ℚ) * (2 : ℚ) ^ j) = (n : ℚ) := by
      rw [div_eq_iff (ne_of_gt (ulp_pos _))]; exact hn
    unfold roundDouble
    rw [hx, roundHalfEven_intCast, ← hn]

theorem isDouble_intCast (n : Int) (hn : |n| < 2 ^ 53) : roundDouble (n : ℚ) = (n : ℚ) := by
  have := isDouble_of_scaled n 0 hn (by norm_num)
  simpa using this


theorem roundHalfEven_le_of_lt_half (y : ℚ) (n : Int) (h : y < (n : ℚ) + 1 / 2) :
    roundHalfEven y ≤ n := by
  have hF : ⌊y⌋ ≤ n := by
    have : ⌊y⌋ < n + 1 := by
      rw [Int.floor_lt]; push_cast; linarith
    omega
  by_cases hc : ⌊y⌋ = n
  · unfold roundHalfEven
    rw [hc, if_pos (by linarith)]
  · have h1 := roundHalfEven_le y
    have h2 : ⌈y⌉ ≤ ⌊y⌋ + 1 := Int.ceil_le_floor_add_one y
    omega

/-- A positive double is `N * 2^J` with `0 < N < 2^53`, `J` the exponent of
its unit in the last place. -/
theorem double_decomp (t : ℚ) (hd : isDouble t) (h0 : 0 < t) :
    ∃ N : Int, t = (N : ℚ) * (2 : ℚ) ^ (max (binExp t) (-1022) - 52) ∧ 0 < N ∧ N < 2 ^ 53 := by
  refine ⟨roundHalfEven (t / ulp t), ?_, ?_, ?_⟩
  · have := hd
    unfold isDouble roundDouble at this
    unfold ulp at this
    exact this.symm
  · have hd2 : (roundHalfEven (t / ulp t) : ℚ) * ulp t = t := hd
    by_contra hneg
    have : (roundHalfEven (t / ulp t) : ℚ) ≤ 0 := by exact_mod_cast not_lt.mp hneg
    have := mul_nonpos_of_nonpos_of_nonneg this (le_of_lt (ulp_pos t))
    linarith
  · have hd2 : (roundHalfEven (t / ulp t) : ℚ) * ulp t = t := hd
    have hlt : t < (2 : ℚ) ^ (binExp t + 1) := by
      have := Int.lt_zpow_succ_log_self (R := ℚ) (b := 2) (by norm_num) |t|
      unfold binExp
      rw [abs_of_pos h0] at this ⊢
      exact_mod_cast this
    have hle : (2 : ℚ) ^ (binExp t + 1) ≤ (2 : ℚ) ^ (53 : Int) * ulp t := by
      unfold ulp
      rw [← zpow_add₀ (by norm_num : (2 : ℚ) ≠ 0)]
      apply zpow_le_zpow_right₀ (by norm_num)
      omega
    have h3 : (roundHalfEven (t / ulp t) : ℚ) * ulp t < (2 : ℚ) ^ (53 : Int) * ulp t := by
      rw [hd2]; exact lt_of_lt_of_le hlt hle
    have h4 : (roundHalfEven (t / ulp t) : ℚ) < (2 : ℚ) ^ (53 : Int) :=
      lt_of_mul_lt_mul_right h3 (le_of_lt (ulp_pos t))
    have h5 : (roundHalfEven (t / ulp t) : ℚ) < ((2 ^ 53 : Int) : ℚ) := by
      calc (roundHalfEven (t / ulp t) : ℚ) < (2 : ℚ) ^ (53 : Int) := h4
        _ = ((2 ^ 53 : Int) : ℚ) := by norm_num
    exact_mod_cast h5


/-- Below `2^53` rounding does not cross an integer. -/
theorem roundDouble_int_bounds (x : ℚ) (hx : |x| < (2 : ℚ) ^ (53 : Int)) (n : Int) :
    ((n : ℚ) ≤ x → (n : ℚ) ≤ roundDouble x) ∧ (x ≤ (n : ℚ) → roundDouble x ≤ (n : ℚ)) := by
  by_cases h0 : x = 0
  · subst h0; rw [roundDouble_zero]; exact ⟨id, id⟩
  · have he := binExp_le_of_lt x 52 h0 (by simpa using hx)
    obtain ⟨k, hk⟩ := grid_of_exp_le x n 0 (by omega)
    rw [zpow_zero, mul_one] at hk
    constructor
    · intro h; rw [hk] at h ⊢; exact roundDouble_ge_of_grid x k h
    · intro h; rw [hk] at h ⊢; exact roundDouble_le_of_grid x k h

/-- The integer part of a non-negative double is a double. -/
theorem isDouble_floor (t : ℚ) (hd : isDouble t) (h0 : 0 ≤ t) :
    roundDouble (⌊t⌋ : ℚ) = (⌊t⌋ : ℚ) ∧ roundDouble (t - (⌊t⌋ : ℚ)) = t - (⌊t⌋ : ℚ) := by
  rcases eq_or_lt_of_le h0 with h | hpos
  · subst h; simp [roundDouble_zero]
  · obtain ⟨N, hN, hN0, hN1⟩ := double_decomp t hd hpos
    by_cases hbig : t < (2 : ℚ) ^ (53 : Int)
    · have he : binExp t ≤ 52 :=
        binExp_le_of_lt t 52 (ne_of_gt hpos) (by rw [abs_of_pos hpos]; simpa using hbig)
      have hf0 : (0 : Int) ≤ ⌊t⌋ := Int.floor_nonneg.mpr h0
      have hf1 : ⌊t⌋ < 2 ^ 53 := by
        rw [Int.floor_lt]; push_cast
        calc t < (2 : ℚ) ^ (53 : Int) := hbig
          _ = 2 ^ 53 := by norm_num
      constructor
      · exact isDouble_intCast _ (by rw [abs_of_nonneg hf0]; exact hf1)
      · obtain ⟨k, hk⟩ := Int.eq_ofNat_of_zero_le
          (show (0 : Int) ≤ -(max (binExp t) (-1022) - 52) by omega)
        have hJ : max (binExp t) (-1022) - 52 = -(k : Int) := by omega
        have hpow : (2 : ℚ) ^ (k : Int) * (2 : ℚ) ^ (-(k : Int)) = 1 := by
          rw [← zpow_add₀ (by norm_num : (2 : ℚ) ≠ 0)]; simp
        have hfr : t - (⌊t⌋ : ℚ) = ((N - ⌊t⌋ * 2 ^ k : Int) : ℚ) * (2 : ℚ) ^ (-(k : Int)) := by
          rw [hJ] at hN
          push_cast
          rw [sub_mul, ← hN, mul_assoc, ← zpow_natCast, hpow, mul_one]
        have hq : (0 : ℚ) < (2 : ℚ) ^ (-(k : Int)) := zpow_pos (by norm_num) _
        have hm0 : 0 ≤ N - ⌊t⌋ * 2 ^ k := by
          have : 0 ≤ t - (⌊t⌋ : ℚ) := sub_nonneg.mpr (Int.floor_le t)
          rw [hfr] at this
          have := nonneg_of_mul_nonneg_left this hq
          exact_mod_cast this
        have hm1 : N - ⌊t⌋ * 2 ^ k ≤ N := by
          have : (0 : Int) ≤ ⌊t⌋ * 2 ^ k := mul_nonneg hf0 (by positivity)
          omega
        rw [hfr]
        apply isDouble_of_scaled
        · rw [abs_of_nonneg hm0]; omega
        · omega
    · have hge : (2 : ℚ) ^ (53 : Int) ≤ |t| := by rw [abs_of_pos hpos]; exact not_lt.mp hbig
      have he : 53 ≤ binExp t := binExp_ge_of_le t 53 hge
      obtain ⟨k, hk⟩ := Int.eq_ofNat_of_zero_le
        (show (0 : Int) ≤ max (binExp t) (-1022) - 52 by omega)
      have hint : t = ((N * 2 ^ k : Int) : ℚ) := by
        rw [hk, zpow_natCast] at hN
        rw [hN]; push_cast; ring
      have hfl : (⌊t⌋ : ℚ) = t := by
        rw [hint, Int.floor_intCast]
      rw [hfl]
      exact ⟨hd, by simp [roundDouble_zero]⟩

/-- A double in `[0, 1)` is at most `1 - 2^-53`. -/
theorem double_lt_one (f : ℚ) (hd : isDouble f) (h0 : 0 ≤ f) (h1 : f < 1) :
    f ≤ 1 - 1 / 2 ^ 53 := by
  rcases eq_or_lt_of_le h0 with h | hpos
  · subst h; norm_num
  · obtain ⟨N, hN, hN0, hN1⟩ := double_decomp f hd hpos
    have he : binExp f ≤ -1 :=
      binExp_le_of_lt f (-1) (ne_of_gt hpos) (by rw [abs_of_pos hpos]; simpa using h1)
    have hJ : max (binExp f) (-1022) - 52 ≤ -53 := by omega
    have hNq : (N : ℚ) ≤ 2 ^ 53 - 1 := by
      have : N ≤ 2 ^ 53 - 1 := by omega
      exact_mod_cast this
    have hpw : (2 : ℚ) ^ (max (binExp f) (-1022) - 52) ≤ (2 : ℚ) ^ (-53 : Int) :=
      zpow_le_zpow_right₀ (by norm_num) hJ
    have hNpos : (0 : ℚ) ≤ (N : ℚ) := by exact_mod_cast le_of_lt hN0
    calc f = (N : ℚ) * (2 : ℚ) ^ (max (binExp f) (-1022) - 52) := hN
      _ ≤ (N : ℚ) * (2 : ℚ) ^ (-53 : Int) := mul_le_mul_of_nonneg_left hpw hNpos
      _ ≤ (2 ^ 53 - 1) * (2 : ℚ) ^ (-53 : Int) :=
          mul_le_mul_of_nonneg_right hNq (le_of_lt (zpow_pos (by norm_num) _))
      _ = 1 - 1 / 2 ^ 53 := by norm_num


theorem roundDouble_eq_of_near (x : ℚ) (e n : Int) (he : -1022 ≤ e)
    (h1 : (2 : ℚ) ^ e ≤ |x|) (h2 : |x| < (2 : ℚ) ^ (e + 1))
    (h3 : (n : ℚ) - 1 / 2 < x / (2 : ℚ) ^ (e - 52))
    (h4 : x / (2 : ℚ) ^ (e - 52) < (n : ℚ) + 1 / 2) :
    roundDouble x = (n : ℚ) * (2 : ℚ) ^ (e - 52) := by
  have hb := binExp_eq x e h1 h2
  have hu : ulp x = (2 : ℚ) ^ (e - 52) := by
    unfold ulp; rw [hb, max_eq_left he]
  unfold roundDouble
  rw [hu, roundHalfEven_of_near _ n h3 h4]

/-- Rounding of the microsecond product `f * 1000000` for `0 ≤ f ≤ 1 - 2^-53`. -/
theorem roundDouble_micro (f : ℚ) (h0 : 0 ≤ f) (h1 : f ≤ 1 - 1 / 2 ^ 53) :
    0 ≤ roundDouble (f * 1000000) ∧ roundDouble (f * 1000000) < 1000000 ∧
    ((⌊f * 1000000⌋ : Int) : ℚ) ≤ roundDouble (f * 1000000) ∧
    roundDouble (f * 1000000) ≤ ((⌊f * 1000000⌋ : Int) : ℚ) + 1 ∧
    roundDouble (f * 1000000) - f * 1000000 < 1 := by
  have hx0 : 0 ≤ f * 1000000 := mul_nonneg h0 (by norm_num)
  have hx1 : f * 1000000 ≤ 1000000 - 1000000 / 2 ^ 53 := by linarith
  have habs : |f * 1000000| < (2 : ℚ) ^ (53 : Int) := by
    rw [abs_of_nonneg hx0]
    calc f * 1000000 ≤ 1000000 - 1000000 / 2 ^ 53 := hx1
      _ < (2 : ℚ) ^ (53 : Int) := by norm_num
  have hb := roundDouble_int_bounds (f * 1000000) habs
  have hfl := Int.floor_le (f * 1000000)
  have hfu := Int.lt_floor_add_one (f * 1000000)
  have hlo : ((⌊f * 1000000⌋ : Int) : ℚ) ≤ roundDouble (f * 1000000) :=
    (hb ⌊f * 1000000⌋).1 hfl
  have hhi : roundDouble (f * 1000000) ≤ ((⌊f * 1000000⌋ : Int) : ℚ) + 1 := by
    have := (hb (⌊f * 1000000⌋ + 1)).2 (by push_cast; linarith)
    push_cast at this; exact this
  refine ⟨?_, ?_, hlo, hhi, ?_⟩
  · have := (hb 0).1 (by simpa using hx0)
    simpa using this
  · by_cases hsmall : f * 1000000 < (2 : ℚ) ^ (19 : Int)
    · have h19 : f * 1000000 ≤ ((524288 : Int) : ℚ) := by
        have : (2 : ℚ) ^ (19 : Int) = ((524288 : Int) : ℚ) := by norm_num
        rw [← this]; exact le_of_lt hsmall
      have := (hb 524288).2 h19
      calc roundDouble (f * 1000000) ≤ ((524288 : Int) : ℚ) := this
        _ < 1000000 := by norm_num
    · have hge : (2 : ℚ) ^ (19 : Int) ≤ |f * 1000000| := by
        rw [abs_of_nonneg hx0]; exact not_lt.mp hsmall
      have hlt : |f * 1000000| < (2 : ℚ) ^ ((19 : Int) + 1) := by
        rw [abs_of_nonneg hx0]
        calc f * 1000000 ≤ 1000000 - 1000000 / 2 ^ 53 := hx1
          _ < (2 : ℚ) ^ ((19 : Int) + 1) := by norm_num
      have hbe := binExp_eq (f * 1000000) 19 hge hlt
      have hu : ulp (f * 1000000) = 1 / 2 ^ 33 := by
        unfold ulp; rw [hbe]; norm_num
      have hy : f * 1000000 / ulp (f * 1000000) <
          ((8589934592000000 - 1 : Int) : ℚ) + 1 / 2 := by
        rw [hu, div_lt_iff₀ (by norm_num)]
        calc f * 1000000 ≤ 1000000 - 1000000 / 2 ^ 53 := hx1
          _ < (((8589934592000000 - 1 : Int) : ℚ) + 1 / 2) * (1 / 2 ^ 33) := by norm_num
      have hr := roundHalfEven_le_of_lt_half _ _ hy
      have hrq : (roundHalfEven (f * 1000000 / ulp (f * 1000000)) : ℚ) ≤
          ((8589934592000000 - 1 : Int) : ℚ) := by exact_mod_cast hr
      unfold roundDouble
      calc (roundHalfEven (f * 1000000 / ulp (f * 1000000)) : ℚ) * ulp (f * 1000000)
          ≤ ((8589934592000000 - 1 : Int) : ℚ) * ulp (f * 1000000) :=
            mul_le_mul_of_nonneg_right hrq (le_of_lt (ulp_pos _))
        _ < 1000000 := by rw [hu]; norm_num
  · by_cases hint : f * 1000000 = ((⌊f * 1000000⌋ : Int) : ℚ)
    · have hfl0 : (0 : Int) ≤ ⌊f * 1000000⌋ := Int.floor_nonneg.mpr hx0
      have hfl1 : ⌊f * 1000000⌋ < 2 ^ 53 := by
        rw [Int.floor_lt]; push_cast
        calc f * 1000000 ≤ 1000000 - 1000000 / 2 ^ 53 := hx1
          _ < 2 ^ 53 := by norm_num
      have := isDouble_intCast ⌊f * 1000000⌋ (by rw [abs_of_nonneg hfl0]; exact hfl1)
      rw [← hint] at this
      rw [this]; norm_num
    · have : ((⌊f * 1000000⌋ : Int) : ℚ) < f * 1000000 := lt_of_le_of_ne hfl (Ne.symm hint)
      linarith


/-! ## Readiness wait: the wait structure -/

theorem truncToInt_of_nonneg (q : ℚ) (h : 0 ≤ q) : truncToInt q = ⌊q⌋ := by
  unfold truncToInt; simp [h]

theorem toLong_of_nonneg (ovf : ℚ → Int) (q : ℚ) (h : 0 ≤ q) (hr : q < 2 ^ 63) :
    toLong ovf q = ⌊q⌋ := by
  unfold toLong
  rw [truncToInt_of_nonneg q h]
  have h1 : (0 : Int) ≤ ⌊q⌋ := Int.floor_nonneg.mpr h
  have h2 : ⌊q⌋ < 2 ^ 63 := by
    rw [Int.floor_lt]; push_cast; exact hr
  have h3 : -(2 ^ 63 : Int) ≤ ⌊q⌋ := le_trans (by norm_num) h1
  rw [if_pos ⟨h3, h2⟩]

theorem doubleOfInt_million : doubleOfInt 1000000 = 1000000 := by
  unfold doubleOfInt
  have := isDouble_intCast 1000000 (by norm_num)
  simpa using this

/-- The wait structure for a non-negative `double` within the range of the
seconds field: whole seconds, and the rounded microsecond product cut to an
integer. -/
theorem uwrapSelect_time_eq (ovf : ℚ → Int) (t : ℚ) (hd : isDouble t) (h0 : 0 ≤ t)
    (hr : t < 2 ^ 63) :
    uwrapSelect_time ovf t =
      ⟨⌊t⌋, ⌊roundDouble ((t - (⌊t⌋ : ℚ)) * 1000000)⌋⟩ := by
  have hsec : toLong ovf t = ⌊t⌋ := toLong_of_nonneg ovf t h0 hr
  have hfl := isDouble_floor t hd h0
  have hf0 : 0 ≤ t - (⌊t⌋ : ℚ) := sub_nonneg.mpr (Int.floor_le t)
  have hf1 : t - (⌊t⌋ : ℚ) < 1 := by
    have := Int.lt_floor_add_one t
    linarith
  have hf2 := double_lt_one _ hfl.2 hf0 hf1
  have hm := roundDouble_micro _ hf0 hf2
  have husec : toLong ovf (roundDouble ((t - (⌊t⌋ : ℚ)) * 1000000)) =
      ⌊roundDouble ((t - (⌊t⌋ : ℚ)) * 1000000)⌋ :=
    toLong_of_nonneg ovf _ hm.1 (lt_trans hm.2.1 (by norm_num))
  unfold uwrapSelect_time
  simp only [hsec]
  unfold doubleMul doubleSub
  rw [doubleOfInt_million]
  unfold doubleOfInt
  rw [hfl.1, hfl.2, husec]

/-- C8: for a timeout `t` that is a finite `double` with `0 ≤ t` and within
the range of the seconds field, the wait structure `uwrapSelect` hands to the
native `select` has `tv_sec = floor t`, and `tv_usec` is the product
`(t - floor t) * 1000000`, rounded to `double`, cut to an integer: that is
`floor ((t - floor t) * 1000000)` or one more; `tv_usec` lies in `0..999999`,
and `tv_sec * 1000000 + tv_usec` is less than one microsecond away from
`t * 1000000`; for `t = 0` both fields are `0`. -/
theorem C8_timeout_conversion (ovf : ℚ → Int) (t : ℚ) (hd : isDouble t) (h0 : 0 ≤ t)
    (hr : t < 2 ^ 63) :
    (uwrapSelect_time ovf t).tv_sec = ⌊t⌋ ∧
    (uwrapSelect_time ovf t).tv_usec = ⌊roundDouble ((t - (⌊t⌋ : ℚ)) * 1000000)⌋ ∧
    ⌊(t - (⌊t⌋ : ℚ)) * 1000000⌋ ≤ (uwrapSelect_time ovf t).tv_usec ∧
    (uwrapSelect_time ovf t).tv_usec ≤ ⌊(t - (⌊t⌋ : ℚ)) * 1000000⌋ + 1 ∧
    0 ≤ (uwrapSelect_time ovf t).tv_usec ∧
    (uwrapSelect_time ovf t).tv_usec ≤ 999999 ∧
    (t * 1000000 - 1 <
      ((uwrapSelect_time ovf t).tv_sec : ℚ) * 1000000 + (uwrapSelect_time ovf t).tv_usec) ∧
    (((uwrapSelect_time ovf t).tv_sec : ℚ) * 1000000 + (uwrapSelect_time ovf t).tv_usec
      < t * 1000000 + 1) ∧
    uwrapSelect_time ovf 0 = ⟨0, 0⟩ ∧
    (∀ (FD_SETSIZE : Int) (select : NativeSelect) (sock : Int),
      0 ≤ sock → sock < FD_SETSIZE → FD_SETSIZE < 2 ^ 31 →
      uwrapSelect FD_SETSIZE select ovf sock t =
        some (select (sock + 1) (some {sock}) none none
          ⟨⌊t⌋, ⌊roundDouble ((t - (⌊t⌋ : ℚ)) * 1000000)⌋⟩)) := by
  have htime := uwrapSelect_time_eq ovf t hd h0 hr
  have hfl := isDouble_floor t hd h0
  have hf0 : 0 ≤ t - (⌊t⌋ : ℚ) := sub_nonneg.mpr (Int.floor_le t)
  have hf1 : t - (⌊t⌋ : ℚ) < 1 := by
    have := Int.lt_floor_add_one t
    linarith
  have hf2 := double_lt_one _ hfl.2 hf0 hf1
  obtain ⟨hP0, hP1, hPlo, hPhi, hPd⟩ := roundDouble_micro _ hf0 hf2
  have hxl := Int.floor_le ((t - (⌊t⌋ : ℚ)) * 1000000)
  have hxu := Int.lt_floor_add_one ((t - (⌊t⌋ : ℚ)) * 1000000)
  have hPl := Int.floor_le (roundDouble ((t - (⌊t⌋ : ℚ)) * 1000000))
  have hu0 : (0 : Int) ≤ ⌊roundDouble ((t - (⌊t⌋ : ℚ)) * 1000000)⌋ := Int.floor_nonneg.mpr hP0
  have hu1 : ⌊roundDouble ((t - (⌊t⌋ : ℚ)) * 1000000)⌋ < 1000000 := by
    rw [Int.floor_lt]; push_cast; exact hP1
  have hlo : ⌊(t - (⌊t⌋ : ℚ)) * 1000000⌋ ≤ ⌊roundDouble ((t - (⌊t⌋ : ℚ)) * 1000000)⌋ :=
    Int.le_floor.mpr hPlo
  have hhi : ⌊roundDouble ((t - (⌊t⌋ : ℚ)) * 1000000)⌋ ≤ ⌊(t - (⌊t⌋ : ℚ)) * 1000000⌋ + 1 := by
    have : ((⌊roundDouble ((t - (⌊t⌋ : ℚ)) * 1000000)⌋ : Int) : ℚ) ≤
        ((⌊(t - (⌊t⌋ : ℚ)) * 1000000⌋ + 1 : Int) : ℚ) := by
      push_cast; linarith
    exact_mod_cast this
  have hloq : ((⌊(t - (⌊t⌋ : ℚ)) * 1000000⌋ : Int) : ℚ) ≤
      ((⌊roundDouble ((t - (⌊t⌋ : ℚ)) * 1000000)⌋ : Int) : ℚ) := by exact_mod_cast hlo
  refine ⟨?_, ?_, ?_, ?_, ?_, ?_, ?_, ?_, ?_, ?_⟩
  · rw [htime]
  · rw [htime]
  · rw [htime]; exact hlo
  · rw [htime]; exact hhi
  · rw [htime]; exact hu0
  · rw [htime]; show ⌊roundDouble ((t - (⌊t⌋ : ℚ)) * 1000000)⌋ ≤ 999999; omega
  · rw [htime]; show _ < ((⌊t⌋ : Int) : ℚ) * 1000000 + _; linarith
  · rw [htime]; show ((⌊t⌋ : Int) : ℚ) * 1000000 + _ < _; linarith
  · have hz : isDouble 0 := roundDouble_zero
    have := uwrapSelect_time_eq ovf 0 hz le_rfl (by norm_num)
    rw [this]
    simp [roundDouble_zero]
  · intro FD_SETSIZE select sock hs0 hs1 hsz
    unfold uwrapSelect FD_SET FD_ZERO intAdd
    rw [if_pos ⟨hs0, hs1⟩]
    simp only []
    rw [if_pos ⟨by omega, by omega⟩, htime]
    simp

/-- Witness of C8: a timeout of 2.75 seconds gives 2 seconds and 750000
microseconds. -/
theorem C8_timeout_conversion_witness :
    isDouble (11 / 4) ∧ (0 : ℚ) ≤ 11 / 4 ∧ (11 / 4 : ℚ) < 2 ^ 63 ∧
    (uwrapSelect_time ovfMin (11 / 4)).tv_sec = 2 ∧
    (uwrapSelect_time ovfMin (11 / 4)).tv_usec = 750000 := by
  have hd : isDouble (11 / 4) := by
    have := isDouble_of_scaled 11 (-2) (by norm_num) (by norm_num)
    have e : ((11 : Int) : ℚ) * (2 : ℚ) ^ (-2 : Int) = 11 / 4 := by norm_num
    rw [e] at this
    exact this
  have h := C8_timeout_conversion ovfMin (11 / 4) hd (by norm_num) (by norm_num)
  have f1 : ⌊(11 / 4 : ℚ)⌋ = 2 := by
    rw [Int.floor_eq_iff]; norm_num
  refine ⟨hd, by norm_num, by norm_num, ?_, ?_⟩
  · rw [h.1, f1]
  · rw [h.2.1, f1]
    have e : ((11 / 4 : ℚ) - ((2 : Int) : ℚ)) * 1000000 = ((750000 : Int) : ℚ) := by norm_num
    rw [e, isDouble_intCast 750000 (by norm_num), Int.floor_intCast]

/-- C8, counterexample: at the `double` nearest to 0.7 the microsecond
product `699999.99999999995...` rounds to the `double` `700000`, so the code
stores `tv_usec = 700000` where `floor ((t - floor t) * 1000000)` is `699999`,
and `tv_sec * 1000000 + tv_usec` exceeds `t * 1000000`. -/
theorem C8_floor_formula_fails_at_double_0_7 :
    isDouble doubleSevenTenths ∧ 0 ≤ doubleSevenTenths ∧ doubleSevenTenths < 2 ^ 63 ∧
    (uwrapSelect_time ovfMin doubleSevenTenths).tv_sec = 0 ∧
    (uwrapSelect_time ovfMin doubleSevenTenths).tv_usec = 700000 ∧
    ⌊(doubleSevenTenths - (⌊doubleSevenTenths⌋ : ℚ)) * 1000000⌋ = 699999 ∧
    ¬ (((uwrapSelect_time ovfMin doubleSevenTenths).tv_sec : ℚ) * 1000000 +
        (uwrapSelect_time ovfMin doubleSevenTenths).tv_usec ≤ doubleSevenTenths * 1000000) := by
  have hd : isDouble doubleSevenTenths := by
    have := isDouble_of_scaled 3152519739159347 (-52) (by norm_num) (by norm_num)
    have e : ((3152519739159347 : Int) : ℚ) * (2 : ℚ) ^ (-52 : Int) = doubleSevenTenths := by
      unfold doubleSevenTenths; norm_num
    rw [e] at this
    exact this
  have h0 : (0 : ℚ) ≤ doubleSevenTenths := by unfold doubleSevenTenths; norm_num
  have hr : doubleSevenTenths < 2 ^ 63 := by unfold doubleSevenTenths; norm_num
  have f1 : ⌊doubleSevenTenths⌋ = 0 := by
    rw [Int.floor_eq_iff]; unfold doubleSevenTenths; norm_num
  have hx : (doubleSevenTenths - ((0 : Int) : ℚ)) * 1000000 =
      49258120924364796875 / 70368744177664 := by
    unfold doubleSevenTenths; norm_num
  have hrd : roundDouble (49258120924364796875 / 70368744177664) = 700000 := by
    have := roundDouble_eq_of_near (49258120924364796875 / 70368744177664) 19
      6012954214400000 (by norm_num)
      (by rw [abs_of_pos (by norm_num)]; norm_num)
      (by rw [abs_of_pos (by norm_num)]; norm_num)
      (by norm_num) (by norm_num)
    rw [this]; norm_num
  have htime := uwrapSelect_time_eq ovfMin doubleSevenTenths hd h0 hr
  rw [f1, hx, hrd] at htime
  have hfl : ⌊(700000 : ℚ)⌋ = 700000 := by
    have : (700000 : ℚ) = ((700000 : Int) : ℚ) := by norm_num
    rw [this, Int.floor_intCast]
  rw [hfl] at htime
  refine ⟨hd, h0, hr, ?_, ?_, ?_, ?_⟩
  · rw [htime]
  · rw [htime]
  · rw [f1, hx, Int.floor_eq_iff]; norm_num
  · rw [htime]; unfold doubleSevenTenths; norm_num

/-! ## Readiness wait: the result -/

theorem toSizeT_of_nonneg (n : Int) (h0 : 0 ≤ n) (h1 : n < 2 ^ 31) : toSizeT n = n.toNat := by
  unfold toSizeT
  rw [Int.emod_eq_of_lt h0 (lt_trans h1 (by norm_num))]

theorem toCInt_of_nonneg (n : Int) (h0 : 0 ≤ n) (h1 : n < 2 ^ 31) : toCInt n = n := by
  unfold toCInt
  rw [Int.emod_eq_of_lt (by omega) (by omega)]
  omega

/-- Function `uwrapSend` hands socket, buffer, length and flags `0` to the native
`send` unaltered, for every length an `int` can hold without a sign. -/
theorem uwrapSend_passes {σ : Type} (send : NativeSend σ) (sock : Int) (data : Bytes)
    (n : Int) (s : σ) (h0 : 0 ≤ n) (h1 : n < 2 ^ 31) :
    uwrapSend send sock data n s =
      (if (send sock data n.toNat 0 s).1 ≠ n then 1 else 0, (send sock data n.toNat 0 s).2) := by
  unfold uwrapSend
  rw [toSizeT_of_nonneg n h0 h1]

/-- Function `uwrapReceive` hands socket, buffer, length and flags `0` to the native
`recv` unaltered and returns its result converted to `int`. -/
theorem uwrapReceive_passes {σ : Type} (recv : NativeRecv σ) (sock : Int) (data : Bytes)
    (n : Int) (s : σ) (h0 : 0 ≤ n) (h1 : n < 2 ^ 31) :
    uwrapReceive recv sock data n s =
      (toCInt (recv sock data n.toNat 0 s).1, (recv sock data n.toNat 0 s).2) := by
  unfold uwrapReceive
  rw [toSizeT_of_nonneg n h0 h1]

/-- C10: in the idealised datagram network, let socket `b` be connected to
socket `a`, let no datagram be pending at `a` before the send, and let the
payload be no longer than the maximum datagram size and than the capacity
`cap` of the receive buffer.  Then `uwrapSend` of the payload on `b` returns
`0`, and the following `uwrapReceive` on `a` returns the payload length and
leaves the payload, byte for byte, in the first bytes of the buffer, the
rest of the buffer and its size being unchanged.  Whatever the native `send`
and `recv` are, the wrappers hand them the socket, the buffer, the length
and flags `0` as given. -/
theorem C10_loopback_round_trip (net : Net) (a b : Int) (payload buf : Bytes) (cap : Int)
    (hpeer : net.peer b = some a) (hempty : net.pending a = [])
    (hmax : payload.length ≤ net.maxDatagram)
    (hcap : (payload.length : Int) ≤ cap) (hint : cap < 2 ^ 31)
    (hbuf : cap.toNat ≤ buf.length) :
    (uwrapSend Net.send b payload payload.length net).1 = 0 ∧
    (uwrapReceive Net.recv a buf cap
      (uwrapSend Net.send b payload payload.length net).2).1 = payload.length ∧
    ((uwrapReceive Net.recv a buf cap
      (uwrapSend Net.send b payload payload.length net).2).2.1).take payload.length = payload ∧
    ((uwrapReceive Net.recv a buf cap
      (uwrapSend Net.send b payload payload.length net).2).2.1).drop payload.length =
        buf.drop payload.length ∧
    ((uwrapReceive Net.recv a buf cap
      (uwrapSend Net.send b payload payload.length net).2).2.1).length = buf.length ∧
    (∀ (σ : Type) (send : NativeSend σ) (sock : Int) (s : σ),
      uwrapSend send sock payload payload.length s =
        (if (send sock payload payload.length 0 s).1 ≠ (payload.length : Int) then 1 else 0,
          (send sock payload payload.length 0 s).2)) ∧
    (∀ (σ : Type) (recv : NativeRecv σ) (sock : Int) (s : σ),
      uwrapReceive recv sock buf cap s =
        (toCInt (recv sock buf cap.toNat 0 s).1, (recv sock buf cap.toNat 0 s).2)) := by
  have hn0 : (0 : Int) ≤ (payload.length : Int) := Int.natCast_nonneg _
  have hn1 : (payload.length : Int) < 2 ^ 31 := lt_of_le_of_lt hcap hint
  have hc0 : (0 : Int) ≤ cap := le_trans hn0 hcap
  have hlen : payload.length ≤ cap.toNat := by omega
  have hsendNative : Net.send b payload payload.length 0 net =
      ((payload.length : Int), net.enqueue a payload) := by
    unfold Net.send
    simp [hpeer, hmax]
  have hsend : uwrapSend Net.send b payload payload.length net =
      (0, net.enqueue a payload) := by
    rw [uwrapSend_passes Net.send b payload payload.length net hn0 hn1]
    simp only [Int.toNat_ofNat]
    simp only [hsendNative]
    simp
  have hq : (net.enqueue a payload).pending a = [payload] := by
    unfold Net.enqueue
    simp [hempty]
  have hrecvNative : Net.recv a buf cap.toNat 0 (net.enqueue a payload) =
      ((payload.length : Int), payload ++ buf.drop payload.length,
        (net.enqueue a payload).setQueue a []) := by
    unfold Net.recv
    simp only [hq, min_eq_left hlen, if_pos]
    simp
    exact Or.inl hcap
  have hrecv : uwrapReceive Net.recv a buf cap (net.enqueue a payload) =
      ((payload.length : Int), payload ++ buf.drop payload.length,
        (net.enqueue a payload).setQueue a []) := by
    rw [uwrapReceive_passes Net.recv a buf cap _ hc0 hint]
    simp only [hrecvNative]
    simp [toCInt_of_nonneg _ hn0 hn1]
  have hpl : payload.length ≤ buf.length := le_trans hlen hbuf
  refine ⟨?_, ?_, ?_, ?_, ?_, ?_, ?_⟩
  · rw [hsend]
  · rw [hsend, hrecv]
  · rw [hsend, hrecv]; simp
  · rw [hsend, hrecv]; simp
  · rw [hsend, hrecv]; simp; omega
  · intro σ send sock s
    rw [uwrapSend_passes send sock payload payload.length s hn0 hn1]
    simp only [Int.toNat_ofNat]
  · intro σ recv sock s
    exact uwrapReceive_passes recv sock buf cap s hc0 hint

/-- Witness of C10: three bytes sent from socket 4 arrive at socket 3 in an
eight-byte buffer. -/
theorem C10_loopback_round_trip_witness :
    loopbackNet.peer 4 = some 3 ∧ loopbackNet.pending 3 = [] ∧
    (uwrapSend Net.send 4 [104, 105, 33] 3 loopbackNet).1 = 0 ∧
    (uwrapReceive Net.recv 3 [0, 0, 0, 0, 0, 0, 0, 0] 8
      (uwrapSend Net.send 4 [104, 105, 33] 3 loopbackNet).2).1 = 3 ∧
    ((uwrapReceive Net.recv 3 [0, 0, 0, 0, 0, 0, 0, 0] 8
      (uwrapSend Net.send 4 [104, 105, 33] 3 loopbackNet).2).2.1).take 3 = [104, 105, 33] := by
  have h := C10_loopback_round_trip loopbackNet 3 4 [104, 105, 33] [0, 0, 0, 0, 0, 0, 0, 0] 8
    (by decide) (by decide) (by decide) (by decide) (by decide) (by decide)
  exact ⟨by decide, by decide, h.1, h.2.1, h.2.2.1⟩

/-- C10, counterexample: with one earlier datagram (the byte 9) pending at
the receiving socket, `uwrapSend` of three bytes returns `0`, but the
following `uwrapReceive` returns `1`, not `3`, and the buffer starts with the
byte 9, not with the payload. -/
theorem C10_round_trip_fails_with_pending_datagram :
    busyNet.peer 4 = some 3 ∧
    (uwrapSend Net.send 4 [104, 105, 33] 3 busyNet).1 = 0 ∧
    (uwrapReceive Net.recv 3 [0, 0, 0, 0, 0, 0, 0, 0] 8
      (uwrapSend Net.send 4 [104, 105, 33] 3 busyNet).2).1 = 1 ∧
    (uwrapReceive Net.recv 3 [0, 0, 0, 0, 0, 0, 0, 0] 8
      (uwrapSend Net.send 4 [104, 105, 33] 3 busyNet).2).2.1 = [9, 0, 0, 0, 0, 0, 0, 0] ∧
    ((uwrapReceive Net.recv 3 [0, 0, 0, 0, 0, 0, 0, 0] 8
      (uwrapSend Net.send 4 [104, 105, 33] 3 busyNet).2).2.1).take 3 ≠ [104, 105, 33] := by
  have hs : uwrapSend Net.send 4 [104, 105, 33] 3 busyNet =
      (0, busyNet.enqueue 3 [104, 105, 33]) := by
    simp [uwrapSend, toSizeT, Net.send, busyNet]
  have hq : (busyNet.enqueue 3 [104, 105, 33]).pending 3 = [[9], [104, 105, 33]] := by
    simp [Net.enqueue, busyNet]
  have hr : uwrapReceive Net.recv 3 [0, 0, 0, 0, 0, 0, 0, 0] 8
      (busyNet.enqueue 3 [104, 105, 33]) =
      (1, [9, 0, 0, 0, 0, 0, 0, 0], (busyNet.enqueue 3 [104, 105, 33]).setQueue 3
        [[104, 105, 33]]) := by
    simp [uwrapReceive, toSizeT, Net.recv, hq, toCInt]
  refine ⟨by decide, ?_, ?_, ?_, ?_⟩
  · rw [hs]
  · rw [hs, hr]
  · rw [hs, hr]
  · rw [hs, hr]; decide

end Uwrap
